import Mathlib

/-!
# Forums: replicated discussion forum (src/forums.go)

A shallow embedding of the storage-facing core of `forums.go`.

* The five relations of `forums_db_create` are lists of rows, in insertion
  order.  `select` without `order by` returns rows in list order, `db.scan`
  returns the first matching row, `db.exists` tests for a matching row. The
  one scan whose order shows through an early return, that of
  `forums_members_save`, is taken in the order of the primary key.
* `replace into` removes every row that has the primary key of the new row and
  appends the new row; columns that are not listed take the column default.
* `update ... where` maps over the rows of the table.
* Outbound `message(...).send()` calls are appended to an outbox, calls of
  `attachments_save` to a log, so that "nothing was sent" is a statement about
  the world returned by a handler.
* `now()` and `uid()` are read by the caller and passed in: a handler that
  reads the clock twice takes two readings.
* The collaborators that live outside this file of the repository are fields
  of `Env` (`valid`, `entity_by_user_id`, `fingerprint`, `attachments`,
  `upload_attachments`), of `Render` (`web_markdown`, `time_local`) and of
  `Services` (`entity_create`, `directory_by_id`, the JSON codec, `itoa`).
* Integers are `Int`: the counters move by one per statement and the 64 bit
  bounds play no role in the properties below.
* Fields of the Go structs that are only filled in for rendering
  (`ForumFingerprint`, `ForumName`, `BodyMarkdown`, `CreatedString`) are not
  stored and not serialised; they are left out of the records. The comment tree
  of `forum_comments` is a `CommentNode`: the stored columns together with the
  rendering fields, the children and the two role flags.
* `forum_comments` takes its depth as a natural number, as its callers start
  it at 0.
-/

namespace Forums

/-! ## Data model -/

/-- Modelled from the spec: an attachment descriptor, which the core carries
through create and submit events as an opaque payload (the type `Attachment`
is declared outside `forums.go`). -/
abbrev Attachment := String

/-- The entity record of a forum owned by the local user (`*Entity`); only its
presence, identifier and fingerprint are used. -/
structure Entity where
  ID : String
  Fingerprint : String
deriving DecidableEq

/-- Go struct `Forum`, also a row of table `forums` (then `Entity` is nil). -/
structure Forum where
  ID : String
  Fingerprint : String
  Name : String
  Role : String
  Members : Int
  Updated : Int
  Entity : Option Entity
deriving DecidableEq

/-- Go struct `ForumMember`, also a row of table `members`. -/
structure ForumMember where
  Forum : String
  ID : String
  Name : String
  Role : String
deriving DecidableEq

/-- Go struct `ForumPost`, also a row of table `posts` (then `Attachments` is
nil). -/
structure ForumPost where
  ID : String
  Forum : String
  Member : String
  Name : String
  Title : String
  Body : String
  Comments : Int
  Up : Int
  Down : Int
  Created : Int
  Updated : Int
  Attachments : Option (List Attachment)
deriving DecidableEq

/-- Go struct `ForumComment` without its rendering fields, also a row of table
`comments`. -/
structure ForumComment where
  ID : String
  Forum : String
  Post : String
  Parent : String
  Member : String
  Name : String
  Body : String
  Up : Int
  Down : Int
  Created : Int
deriving DecidableEq

/-- Go struct `ForumVote` as decoded from an event. -/
structure ForumVote where
  Post : String
  Comment : String
  Voter : String
  Vote : String
deriving DecidableEq

/-- A row of table `votes`: the four columns of `ForumVote` and `forum`. -/
structure VoteRow where
  Forum : String
  Post : String
  Comment : String
  Voter : String
  Vote : String
deriving DecidableEq

/-- The app database created by `forums_db_create`. -/
structure DB where
  forums : List Forum
  members : List ForumMember
  posts : List ForumPost
  comments : List ForumComment
  votes : List VoteRow
deriving DecidableEq

/-- The content added to a message with `.add(x)`. -/
inductive Segment where
  | post (p : ForumPost)
  | comment (c : ForumComment)
  | vote (v : ForumVote)
deriving DecidableEq

/-- A message handed to the transport: `message(from, to, service, event)`
followed by `.add(x)` or `.set(key, value)` and `.send()`. -/
structure Message where
  from_ : String
  to_ : String
  service : String
  event : String
  fields : List (String × String)
  content : Option Segment
deriving DecidableEq

/-- Local identity of a user. -/
structure Identity where
  ID : String
  Name : String
deriving DecidableEq

/-- A local user; its database is the `db` of the world. -/
structure User where
  Identity : Identity
deriving DecidableEq

/-- An inbound event `(id, from, to, payload)` for the user `user`. -/
structure Event where
  id : String
  from_ : String
  to_ : String
  user : User
  fields : List (String × String)
  content : Option Segment
deriving DecidableEq

/-- A local action: the logged in user, if any, and the request inputs. -/
structure Action where
  user : Option User
  inputs : List (String × String)
deriving DecidableEq

/-- What an action answers: `a.error(code, text)` or `a.template(name, ...)`. -/
inductive Reply where
  | error (code : Nat) (text : String)
  | template (name : String)
deriving DecidableEq

/-- Collaborators of `forums.go` that are defined elsewhere in the server. -/
structure Env where
  valid : String → String → Bool
  entity_by_user_id : User → String → Option Entity
  fingerprint : String → String
  attachments : User → String → Option (List Attachment)
  upload_attachments : Action → String → String → String → Bool → Option (List Attachment)

/-- One recorded call of `attachments_save(attachments, user, forum, path)`. -/
structure Saved where
  attachments : Option (List Attachment)
  user : User
  forum : String
  path : String
deriving DecidableEq

/-- The local node: its database, the messages it has sent and the
attachment sets it has handed to the attachment store. -/
structure World where
  db : DB
  outbox : List Message
  saved : List Saved
deriving DecidableEq

/-! ## Wire format

`cbor:"-"` fields are not serialised: a decoded struct has the zero value
there. -/

/-- Struct `ForumPost` after a round trip through the wire: `Forum` is
`cbor:"-"`. -/
def wire_post (p : ForumPost) : ForumPost := { p with Forum := "" }

/-- Struct `ForumComment` after a round trip through the wire: `Forum` is
`cbor:"-"`. -/
def wire_comment (c : ForumComment) : ForumComment := { c with Forum := "" }

/-- `message(f, t, "forums", ev).add(p)` for a post. -/
def message_post (f t ev : String) (p : ForumPost) : Message :=
  { from_ := f, to_ := t, service := "forums", event := ev, fields := [],
    content := some (Segment.post (wire_post p)) }

/-- `message(f, t, "forums", ev).add(c)` for a comment. -/
def message_comment (f t ev : String) (c : ForumComment) : Message :=
  { from_ := f, to_ := t, service := "forums", event := ev, fields := [],
    content := some (Segment.comment (wire_comment c)) }

/-- `message(f, t, "forums", ev).add(v)` for a vote. -/
def message_vote (f t ev : String) (v : ForumVote) : Message :=
  { from_ := f, to_ := t, service := "forums", event := ev, fields := [],
    content := some (Segment.vote v) }

/-- `message(f, t, "forums", ev).set(k, v)`. -/
def message_set (f t ev k v : String) : Message :=
  { from_ := f, to_ := t, service := "forums", event := ev, fields := [(k, v)],
    content := none }

/-- `message(f, t, "forums", ev)` sent without content. -/
def message_empty (f t ev : String) : Message :=
  { from_ := f, to_ := t, service := "forums", event := ev, fields := [],
    content := none }

/-- `m.send()`. -/
def World.send (w : World) (m : Message) : World :=
  { w with outbox := w.outbox ++ [m] }

/-- Sending a list of messages in order (the body of a `for ... range` loop
whose only effect is `send`). -/
def World.send_all (w : World) (ms : List Message) : World :=
  { w with outbox := w.outbox ++ ms }

/-- `e.segment(&p)` for a `ForumPost`. -/
def Event.segment_post (e : Event) : Option ForumPost :=
  match e.content with
  | some (Segment.post p) => some p
  | _ => none

/-- `e.segment(&c)` for a `ForumComment`. -/
def Event.segment_comment (e : Event) : Option ForumComment :=
  match e.content with
  | some (Segment.comment c) => some c
  | _ => none

/-- `e.segment(&v)` for a `ForumVote`. -/
def Event.segment_vote (e : Event) : Option ForumVote :=
  match e.content with
  | some (Segment.vote v) => some v
  | _ => none

/-- `e.get(key, default)`. -/
def Event.get (e : Event) (key dflt : String) : String :=
  (e.fields.lookup key).getD dflt

/-- `a.input(name)`: the empty string when the input is absent. -/
def Action.input (a : Action) (name : String) : String :=
  (a.inputs.lookup name).getD ""

/-! ## Storage statements -/

/-- Statement `update forums set updated=? where id=?`. -/
def DB.forums_set_updated (db : DB) (now : Int) (id : String) : DB :=
  { db with forums := db.forums.map fun r => if r.ID = id then { r with Updated := now } else r }

/-- Statement `update posts set ... where id=?`, the assignments given by `f`. -/
def DB.update_posts (db : DB) (id : String) (f : ForumPost → ForumPost) : DB :=
  { db with posts := db.posts.map fun r => if r.ID = id then f r else r }

/-- Statement `update comments set ... where id=?`, the assignments given by
`f`. -/
def DB.update_comments (db : DB) (id : String) (f : ForumComment → ForumComment) : DB :=
  { db with comments := db.comments.map fun r => if r.ID = id then f r else r }

/-- Statement `replace into posts`: primary key `id`. -/
def DB.replace_post (db : DB) (r : ForumPost) : DB :=
  { db with posts := db.posts.filter (fun x => x.ID != r.ID) ++ [r] }

/-- Statement `replace into comments`: primary key `id`. -/
def DB.replace_comment (db : DB) (r : ForumComment) : DB :=
  { db with comments := db.comments.filter (fun x => x.ID != r.ID) ++ [r] }

/-- Whether two vote rows have the same primary key
`( forum, post, comment, voter )`. -/
def VoteRow.same_key (x r : VoteRow) : Bool :=
  x.Forum == r.Forum && x.Post == r.Post && x.Comment == r.Comment && x.Voter == r.Voter

/-- Statement `replace into votes`: primary key
`( forum, post, comment, voter )`. -/
def DB.replace_vote (db : DB) (r : VoteRow) : DB :=
  { db with votes := db.votes.filter (fun x => !x.same_key r) ++ [r] }

/-- Statement `replace into members`: primary key `( forum, id )`. -/
def DB.replace_member (db : DB) (r : ForumMember) : DB :=
  { db with members := db.members.filter (fun x => !(x.Forum == r.Forum && x.ID == r.ID)) ++ [r] }

/-- Query `select * from members where forum=? and role!="disabled"`. -/
def DB.active_members (db : DB) (forum : String) : List ForumMember :=
  db.members.filter fun m => m.Forum == forum && m.Role != "disabled"

/-! ## Registry and role table -/

/-- Function `forum_by_id`: by identifier, else by fingerprint; the entity is
resolved when a user is given. -/
def forum_by_id (env : Env) (u : Option User) (db : DB) (id : String) : Option Forum :=
  match (db.forums.find? fun r => r.ID == id) <|> (db.forums.find? fun r => r.Fingerprint == id) with
  | none => none
  | some f =>
    match u with
    | some u => some { f with Entity := env.entity_by_user_id u f.ID }
    | none => some f

/-- The map `forum_roles`. -/
def forum_roles : List (String × Nat) :=
  [("disabled", 0), ("viewer", 1), ("voter", 2), ("commenter", 3), ("poster", 4),
   ("administrator", 5)]

/-- Function `forum_role`: whether a forum member has a required role. -/
def forum_role (m : Option ForumMember) (need : String) : Bool :=
  let have_ := match m with
    | some m => m.Role
    | none => "viewer"
  match forum_roles.lookup have_ with
  | none => false
  | some h =>
    match forum_roles.lookup need with
    | none => false
    | some n => if h < n then false else true

/-- Function `forum_member`: the member row of `member` in `f` when its role
satisfies `role`. -/
def forum_member (db : DB) (f : Forum) (member role : String) : Option ForumMember :=
  match db.members.find? fun m => m.Forum == f.ID && m.ID == member with
  | none => none
  | some m => if !forum_role (some m) role then none else some m

/-! ## Vote ledger -/

/-- Function `forums_post_vote_set`; returns the database and the struct behind
the pointer `p`. -/
def forums_post_vote_set (db : DB) (p : ForumPost) (voter vote : String) (now : Int) :
    DB × ForumPost :=
  let s1 : DB × ForumPost :=
    match db.votes.find? fun r => r.Post == p.ID && r.Voter == voter with
    | some o =>
      if o.Vote = "up" then
        (db.update_posts p.ID fun r => { r with Up := r.Up - 1, Updated := now },
          { p with Up := p.Up - 1 })
      else if o.Vote = "down" then
        (db.update_posts p.ID fun r => { r with Down := r.Down - 1, Updated := now },
          { p with Down := p.Down - 1 })
      else (db, p)
    | none => (db, p)
  let db2 := s1.1.replace_vote
    { Forum := p.Forum, Post := p.ID, Comment := "", Voter := voter, Vote := vote }
  let s3 : DB × ForumPost :=
    if vote = "up" then
      (db2.update_posts p.ID fun r => { r with Up := r.Up + 1, Updated := now },
        { s1.2 with Up := s1.2.Up + 1 })
    else if vote = "down" then
      (db2.update_posts p.ID fun r => { r with Down := r.Down + 1, Updated := now },
        { s1.2 with Down := s1.2.Down + 1 })
    else (db2, s1.2)
  (s3.1.forums_set_updated now p.Forum, s3.2)

/-- Function `forums_comment_vote_set`; returns the database and the struct
behind the pointer `c`.  The values of the `replace into votes` statement are
bound in the order of the source: `c.Forum, c.Post, voter, c.ID, vote` for the
columns `forum, post, comment, voter, vote`. -/
def forums_comment_vote_set (db : DB) (c : ForumComment) (voter vote : String) (now : Int) :
    DB × ForumComment :=
  let s1 : DB × ForumComment :=
    match db.votes.find? fun r => r.Comment == c.ID && r.Voter == voter with
    | some o =>
      if o.Vote = "up" then
        (db.update_comments c.ID fun r => { r with Up := r.Up - 1 }, { c with Up := c.Up - 1 })
      else if o.Vote = "down" then
        (db.update_comments c.ID fun r => { r with Down := r.Down - 1 },
          { c with Down := c.Down - 1 })
      else (db, c)
    | none => (db, c)
  let db2 := s1.1.replace_vote
    { Forum := c.Forum, Post := c.Post, Comment := voter, Voter := c.ID, Vote := vote }
  let s3 : DB × ForumComment :=
    if vote = "up" then
      (db2.update_comments c.ID fun r => { r with Up := r.Up + 1 }, { s1.2 with Up := s1.2.Up + 1 })
    else if vote = "down" then
      (db2.update_comments c.ID fun r => { r with Down := r.Down + 1 },
        { s1.2 with Down := s1.2.Down + 1 })
    else (db2, s1.2)
  ((s3.1.update_posts c.Post fun r => { r with Updated := now }).forums_set_updated now c.Forum,
    s3.2)

/-! ## Comments -/

/-- Function `forums_comment_create`: new comment by the local user. -/
def forums_comment_create (env : Env) (w : World) (a : Action) (now : Int) (uid : String) :
    World × Reply :=
  match a.user with
  | none => (w, Reply.error 401 "Not logged in")
  | some u =>
    match forum_by_id env (some u) w.db (a.input "forum") with
    | none => (w, Reply.error 404 "Forum not found")
    | some f =>
      let post := a.input "post"
      if !(w.db.posts.any fun r => r.ID == post && r.Forum == f.ID) then
        (w, Reply.error 404 "Post not found")
      else
        let parent := a.input "parent"
        if parent != "" && !(w.db.comments.any fun r => r.ID == parent && r.Post == post) then
          (w, Reply.error 404 "Parent not found")
        else
          let body := a.input "body"
          if !env.valid body "text" then (w, Reply.error 400 "Invalid body")
          else
            let id := uid
            if w.db.comments.any fun r => r.ID == id then (w, Reply.error 500 "Duplicate ID")
            else
              let db1 := w.db.replace_comment
                { ID := id, Forum := f.ID, Post := post, Parent := parent,
                  Member := u.Identity.ID, Name := u.Identity.Name, Body := body,
                  Up := 0, Down := 0, Created := now }
              let db2 := db1.update_posts post fun r =>
                { r with Updated := now, Comments := r.Comments + 1 }
              let db3 := db2.forums_set_updated now f.ID
              let w1 : World := { w with db := db3 }
              let w2 : World :=
                match f.Entity with
                | some _ =>
                  w1.send_all
                    (((db3.active_members f.ID).filter fun m => m.ID != u.Identity.ID).map fun m =>
                      message_comment f.ID m.ID "comment/create"
                        { ID := id, Forum := "", Post := post, Parent := parent,
                          Member := u.Identity.ID, Name := u.Identity.Name, Body := body,
                          Up := 0, Down := 0, Created := now })
                | none =>
                  w1.send (message_comment u.Identity.ID f.ID "comment/submit"
                    { ID := id, Forum := "", Post := post, Parent := parent, Member := "",
                      Name := "", Body := body, Up := 0, Down := 0, Created := 0 })
              (w2, Reply.template "forums/comment/create")

/-- Function `forums_comment_create_event`: a comment received from the
owner. -/
def forums_comment_create_event (env : Env) (w : World) (e : Event) : World :=
  match forum_by_id env (some e.user) w.db e.from_ with
  | none => w
  | some f =>
    match e.segment_comment with
    | none => w
    | some c =>
      if !env.valid c.ID "id" then w
      else if w.db.comments.any fun r => r.ID == c.ID then w
      else if !env.valid c.Member "entity" then w
      else if !env.valid c.Name "name" then w
      else if !env.valid c.Body "text" then w
      else
        let db1 := w.db.replace_comment
          { ID := c.ID, Forum := f.ID, Post := c.Post, Parent := c.Parent, Member := c.Member,
            Name := c.Name, Body := c.Body, Up := 0, Down := 0, Created := c.Created }
        let db2 := db1.update_posts c.Post fun r =>
          { r with Updated := c.Created, Comments := r.Comments + 1 }
        { w with db := db2.forums_set_updated c.Created f.ID }

/-- Function `forums_comment_submit_event`: a comment received from a member;
`now` is the reading of the clock at acceptance. -/
def forums_comment_submit_event (env : Env) (w : World) (e : Event) (now : Int) : World :=
  match forum_by_id env (some e.user) w.db e.to_ with
  | none => w
  | some f =>
    match e.segment_comment with
    | none => w
    | some c =>
      if !env.valid c.ID "id" then w
      else if w.db.comments.any fun r => r.ID == c.ID then w
      else if !(w.db.posts.any fun r => r.Forum == f.ID && r.ID == c.Post) then w
      else if c.Parent != "" &&
          !(w.db.comments.any fun r => r.Forum == f.ID && r.Post == c.Post && r.ID == c.Parent)
        then w
      else
        match forum_member w.db f e.from_ "commenter" with
        | none => w
        | some m =>
          let c1 : ForumComment := { c with Created := now, Member := e.from_, Name := m.Name }
          if !env.valid c1.Body "text" then w
          else
            let db1 := w.db.replace_comment
              { ID := e.id, Forum := f.ID, Post := c1.Post, Parent := c1.Parent,
                Member := c1.Member, Name := c1.Name, Body := c1.Body, Up := 0, Down := 0,
                Created := c1.Created }
            let db2 := db1.update_posts c1.Post fun r =>
              { r with Updated := c1.Created, Comments := r.Comments + 1 }
            let db3 := db2.forums_set_updated c1.Created f.ID
            let w1 : World := { w with db := db3 }
            w1.send_all
              (((db3.active_members f.ID).filter fun m =>
                  m.ID != e.from_ && m.ID != e.user.Identity.ID).map fun m =>
                message_comment f.ID m.ID "comment/create" c1)

/-- Function `forums_comment_vote`: vote on a comment by the local user. -/
def forums_comment_vote (env : Env) (w : World) (a : Action) (now : Int) : World × Reply :=
  match a.user with
  | none => (w, Reply.error 401 "Not logged in")
  | some u =>
    match w.db.comments.find? fun r => r.ID == a.input "comment" with
    | none => (w, Reply.error 404 "Comment not found")
    | some c =>
      match forum_by_id env (some u) w.db c.Forum with
      | none => (w, Reply.error 404 "Forum not found")
      | some f =>
        let vote := a.input "vote"
        let s := forums_comment_vote_set w.db c u.Identity.ID vote now
        let w1 : World := { w with db := s.1 }
        let w2 : World :=
          match f.Entity with
          | some _ =>
            w1.send_all
              (((s.1.active_members f.ID).filter fun m => m.ID != u.Identity.ID).map fun m =>
                message_comment f.ID m.ID "comment/update" s.2)
          | none =>
            w1.send (message_vote u.Identity.ID f.ID "comment/vote"
              { Post := "", Comment := c.ID, Voter := "", Vote := vote })
        (w2, Reply.template "forums/comment/vote")

/-- Function `forums_comment_vote_event`: a comment vote received from a
member. -/
def forums_comment_vote_event (env : Env) (w : World) (e : Event) (now : Int) : World :=
  match e.segment_vote with
  | none => w
  | some v =>
    match w.db.comments.find? fun r => r.ID == v.Comment with
    | none => w
    | some c =>
      match forum_by_id env (some e.user) w.db c.Forum with
      | none => w
      | some f =>
        match forum_member w.db f e.from_ "voter" with
        | none => w
        | some _ =>
          let s := forums_comment_vote_set w.db c e.from_ v.Vote now
          let w1 : World := { w with db := s.1 }
          w1.send_all
            (((s.1.active_members f.ID).filter fun m =>
                m.ID != e.from_ && m.ID != e.user.Identity.ID).map fun m =>
              message_comment f.ID m.ID "comment/update" s.2)

/-! ## Posts -/

/-- The scoping path `fmt.Sprintf("forums/%s/%s", forum, post)`. -/
def attachments_path (forum post : String) : String :=
  "forums/" ++ forum ++ "/" ++ post

/-- Function `forums_post_create`: new post by the local user. -/
def forums_post_create (env : Env) (w : World) (a : Action) (now : Int) (uid : String) :
    World × Reply :=
  match a.user with
  | none => (w, Reply.error 401 "Not logged in")
  | some u =>
    match forum_by_id env (some u) w.db (a.input "forum") with
    | none => (w, Reply.error 404 "Forum not found")
    | some f =>
      let title := a.input "title"
      if !env.valid (a.input "title") "line" then (w, Reply.error 400 "Invalid title")
      else
        let body := a.input "body"
        if !env.valid body "text" then (w, Reply.error 400 "Invalid body")
        else
          let post := uid
          if w.db.posts.any fun r => r.ID == post then (w, Reply.error 500 "Duplicate ID")
          else
            let db1 := w.db.replace_post
              { ID := post, Forum := f.ID, Member := u.Identity.ID, Name := u.Identity.Name,
                Title := title, Body := body, Comments := 0, Up := 0, Down := 0,
                Created := now, Updated := now, Attachments := none }
            let db2 := db1.forums_set_updated now f.ID
            let w1 : World := { w with db := db2 }
            let w2 : World :=
              match f.Entity with
              | some _ =>
                let attachments :=
                  env.upload_attachments a "attachments" f.ID (attachments_path f.ID post) true
                w1.send_all
                  (((db2.active_members f.ID).filter fun m => m.ID != u.Identity.ID).map fun m =>
                    message_post f.ID m.ID "post/create"
                      { ID := post, Forum := "", Member := u.Identity.ID,
                        Name := u.Identity.Name, Title := title, Body := body, Comments := 0,
                        Up := 0, Down := 0, Created := now, Updated := 0,
                        Attachments := attachments })
              | none =>
                let attachments :=
                  env.upload_attachments a "attachments" f.ID (attachments_path f.ID post) false
                w1.send (message_post u.Identity.ID f.ID "post/submit"
                  { ID := post, Forum := "", Member := "", Name := "", Title := title,
                    Body := body, Comments := 0, Up := 0, Down := 0, Created := 0, Updated := 0,
                    Attachments := attachments })
            (w2, Reply.template "forums/post/create")

/-- Function `forums_post_create_event`: a post received from the owner; `now`
is the reading of the clock for the forum row. -/
def forums_post_create_event (env : Env) (w : World) (e : Event) (now : Int) : World :=
  match forum_by_id env (some e.user) w.db e.from_ with
  | none => w
  | some f =>
    match e.segment_post with
    | none => w
    | some p =>
      if !env.valid p.ID "id" then w
      else if w.db.comments.any fun r => r.ID == p.ID then w
      else if !env.valid p.Member "entity" then w
      else if !env.valid p.Name "name" then w
      else if !env.valid p.Title "line" then w
      else if !env.valid p.Body "text" then w
      else
        let db1 := w.db.replace_post
          { ID := p.ID, Forum := f.ID, Member := p.Member, Name := p.Name, Title := p.Title,
            Body := p.Body, Comments := 0, Up := p.Up, Down := p.Down, Created := p.Created,
            Updated := p.Created, Attachments := none }
        { db := db1.forums_set_updated now f.ID,
          outbox := w.outbox,
          saved := w.saved ++
            [{ attachments := p.Attachments, user := e.user, forum := f.ID,
               path := attachments_path f.ID p.ID }] }

/-- Function `forums_post_submit_event`: a post received from a member; `now1`
is the clock at acceptance, `now2` the later reading for the forum row. -/
def forums_post_submit_event (env : Env) (w : World) (e : Event) (now1 now2 : Int) : World :=
  match forum_by_id env (some e.user) w.db e.to_ with
  | none => w
  | some f =>
    match e.segment_post with
    | none => w
    | some p =>
      if !env.valid p.ID "id" then w
      else if w.db.posts.any fun r => r.ID == p.ID then w
      else
        match forum_member w.db f e.from_ "poster" with
        | none => w
        | some m =>
          let p1 : ForumPost := { p with Created := now1, Member := e.from_, Name := m.Name }
          if !env.valid p1.Title "line" then w
          else if !env.valid p1.Body "text" then w
          else
            let db1 := w.db.replace_post
              { ID := p1.ID, Forum := f.ID, Member := p1.Member, Name := p1.Name,
                Title := p1.Title, Body := p1.Body, Comments := 0, Up := 0, Down := 0,
                Created := p1.Created, Updated := p1.Created, Attachments := none }
            let db2 := db1.forums_set_updated now2 f.ID
            let w1 : World :=
              { db := db2, outbox := w.outbox,
                saved := w.saved ++
                  [{ attachments := p1.Attachments, user := e.user, forum := f.ID,
                     path := attachments_path f.ID p1.ID }] }
            let p2 : ForumPost := { p1 with Attachments := none }
            w1.send_all
              (((db2.active_members f.ID).filter fun m =>
                  m.ID != e.from_ && m.ID != e.user.Identity.ID).map fun m =>
                message_post f.ID m.ID "post/create" p2)

/-- Function `forums_post_vote`: vote on a post by the local user. -/
def forums_post_vote (env : Env) (w : World) (a : Action) (now : Int) : World × Reply :=
  match a.user with
  | none => (w, Reply.error 401 "Not logged in")
  | some u =>
    match w.db.posts.find? fun r => r.ID == a.input "post" with
    | none => (w, Reply.error 404 "Post not found")
    | some p =>
      match forum_by_id env (some u) w.db p.Forum with
      | none => (w, Reply.error 404 "Forum not found")
      | some f =>
        let vote := a.input "vote"
        let s := forums_post_vote_set w.db p u.Identity.ID vote now
        let w1 : World := { w with db := s.1 }
        let w2 : World :=
          match f.Entity with
          | some _ =>
            w1.send_all
              (((s.1.active_members f.ID).filter fun m => m.ID != u.Identity.ID).map fun m =>
                message_post f.ID m.ID "post/update" s.2)
          | none =>
            w1.send (message_vote u.Identity.ID f.ID "post/vote"
              { Post := p.ID, Comment := "", Voter := "", Vote := vote })
        (w2, Reply.template "forums/post/vote")

/-- Function `forums_post_vote_event`: a post vote received from a member. -/
def forums_post_vote_event (env : Env) (w : World) (e : Event) (now : Int) : World :=
  match e.segment_vote with
  | none => w
  | some v =>
    match w.db.posts.find? fun r => r.ID == v.Post with
    | none => w
    | some p =>
      match forum_by_id env (some e.user) w.db p.Forum with
      | none => w
      | some f =>
        match forum_member w.db f e.from_ "voter" with
        | none => w
        | some _ =>
          let s := forums_post_vote_set w.db p e.from_ v.Vote now
          let w1 : World := { w with db := s.1 }
          w1.send_all
            (((s.1.active_members f.ID).filter fun m =>
                m.ID != e.from_ && m.ID != e.user.Identity.ID).map fun m =>
              message_post f.ID m.ID "post/update" s.2)

/-! ## Catch-up replay -/

/-- Order of `order by updated desc`: `a` comes no later than `b`. -/
def ForumPost.newer (a b : ForumPost) : Prop := b.Updated ≤ a.Updated

instance ForumPost.newer_decidable : DecidableRel ForumPost.newer :=
  fun a b => inferInstanceAs (Decidable (b.Updated ≤ a.Updated))

/-- Query `select * from posts where forum=? order by updated desc limit 1000`. -/
def DB.recent_posts (db : DB) (forum : String) : List ForumPost :=
  ((db.posts.filter fun r => r.Forum == forum).insertionSort ForumPost.newer).take 1000

/-- Query `select * from comments where post=?`. -/
def DB.comments_of_post (db : DB) (post : String) : List ForumComment :=
  db.comments.filter fun r => r.Post == post

/-- Function `forum_send_recent_posts`: send recent posts to a new member. -/
def forum_send_recent_posts (env : Env) (u : User) (w : World) (f : Forum) (member : String) :
    World :=
  let ps := w.db.recent_posts f.ID
  let w1 := w.send_all (ps.map fun p =>
    message_post f.ID member "post/create"
      { p with Attachments := env.attachments u (attachments_path f.ID p.ID) })
  w1.send_all (ps.flatMap fun p =>
    (w1.db.comments_of_post p.ID).map fun c => message_comment f.ID member "comment/create" c)

/-! ## Vote histories -/

/-- One call `forums_post_vote_set(db, &p, voter, vote)` with the reading of
the clock it makes. -/
structure PostVoteCall where
  p : ForumPost
  voter : String
  vote : String
  now : Int
deriving DecidableEq

/-- The database after a sequence of `forums_post_vote_set` calls, oldest
first. -/
def post_votes_run (db : DB) (calls : List PostVoteCall) : DB :=
  calls.foldl (fun d c => (forums_post_vote_set d c.p c.voter c.vote c.now).1) db

/-- The most recent choice of `voter` in a sequence of calls, oldest first. -/
def latest_vote (calls : List PostVoteCall) (voter : String) : Option String :=
  calls.foldl (fun acc c => if c.voter = voter then some c.vote else acc) none

/-- The voters whose most recent choice in `calls` is `choice`. -/
def voters_with (calls : List PostVoteCall) (choice : String) : Finset String :=
  (calls.map fun c => c.voter).toFinset.filter fun v => latest_vote calls v = some choice

/-- The vote rows of a post held by one voter. -/
def DB.votes_of (db : DB) (post voter : String) : List VoteRow :=
  db.votes.filter fun r => r.Post == post && r.Voter == voter

/-- The number a tally loses for a prior vote row. -/
def prior_vote (o : Option VoteRow) (choice : String) : Int :=
  if o.map (fun r => r.Vote) = some choice then 1 else 0

/-- The vote row that `forums_post_vote_set` stores for a voter. -/
def post_vote_row (forum post voter vote : String) : VoteRow :=
  { Forum := forum, Post := post, Comment := "", Voter := voter, Vote := vote }

/-- The state of post `pid` of forum `fid` after the history `h` of
`forums_post_vote_set` calls, relative to the initial database `db0`: one vote
row per voter holding the latest choice, tallies equal to the number of voters
per latest choice, and the same post rows by identifier. -/
def PostVoteInv (db0 db : DB) (pid fid : String) (h : List PostVoteCall) : Prop :=
  (∀ v, db.votes_of pid v =
    match latest_vote h v with
    | none => []
    | some x => [post_vote_row fid pid v x]) ∧
  (∀ r ∈ db.posts, r.ID = pid →
    r.Up = ((voters_with h "up").card : Int) ∧ r.Down = ((voters_with h "down").card : Int)) ∧
  db.posts.map (fun r => r.ID) = db0.posts.map (fun r => r.ID)

/-! ## Specification vocabulary and example data

The predicates the properties are stated with, and the concrete stores, events
and actions the properties are evaluated on. `valid` is not part of
`forums.go`; the examples run with a validator that accepts every string. -/

/-- The collaborators of the worked examples on a node that owns no forum:
every string is valid, there are no attachments. -/
def example_env : Env :=
  { valid := fun _ _ => true,
    entity_by_user_id := fun _ _ => none,
    fingerprint := fun s => s,
    attachments := fun _ _ => none,
    upload_attachments := fun _ _ _ _ _ => none }

/-- The environment of a node that owns forum "F". -/
def example_owner_env : Env :=
  { example_env with
    entity_by_user_id := fun _ id =>
      if id = "F" then some { ID := "F", Fingerprint := "F" } else none }

/-- Forum "F" as a row. -/
def example_forum : Forum :=
  { ID := "F", Fingerprint := "fp", Name := "Forum", Role := "commenter", Members := 1,
    Updated := 0, Entity := none }

/-- Post "P" of forum "F", tallies 0/0, created at time 1. -/
def example_post : ForumPost :=
  { ID := "P", Forum := "F", Member := "A", Name := "Alice", Title := "T", Body := "B",
    Comments := 0, Up := 0, Down := 0, Created := 1, Updated := 1, Attachments := none }

/-- Comment "C" on post "P", tallies 0/0. -/
def example_comment : ForumComment :=
  { ID := "C", Forum := "F", Post := "P", Parent := "", Member := "A", Name := "Alice",
    Body := "hi", Up := 0, Down := 0, Created := 2 }

/-- A database holding forum "F" with post "P" and no votes. -/
def example_db : DB :=
  { forums := [example_forum], members := [], posts := [example_post], comments := [],
    votes := [] }

/-- Voter "V" votes up at time 5, then down at time 6, on post "P". -/
def example_calls : List PostVoteCall :=
  [{ p := example_post, voter := "V", vote := "up", now := 5 },
   { p := example_post, voter := "V", vote := "down", now := 6 }]

/-- A database holding forum "F", post "P" with one comment "C" counted, up 2,
down 1, last updated at time 9. -/
def example_db_commented : DB :=
  { forums := [example_forum], members := [],
    posts := [{ example_post with Comments := 1, Up := 2, Down := 1, Updated := 9 }],
    comments := [example_comment], votes := [] }

/-- The local user "M", a member of forum "F". -/
def example_user : User := { Identity := { ID := "M", Name := "Mallory" } }

/-- The post/create event of post "P" as the owner "F" sent it. -/
def example_post_create : Event :=
  { id := "E1", from_ := "F", to_ := "M", user := example_user, fields := [],
    content := some (Segment.post (wire_post example_post)) }

/-- The comment/create event of comment "C" as the owner "F" sent it. -/
def example_comment_create : Event :=
  { id := "E2", from_ := "F", to_ := "M", user := example_user, fields := [],
    content := some (Segment.comment (wire_comment example_comment)) }

/-- A comment/create event for comment "D" on post "Q" with parent "X";
neither "Q" nor "X" is stored in `example_db`. -/
def example_orphan_create : Event :=
  { id := "E3", from_ := "F", to_ := "M", user := example_user, fields := [],
    content := some (Segment.comment
      { ID := "D", Forum := "", Post := "Q", Parent := "X", Member := "A", Name := "Alice",
        Body := "hi", Up := 0, Down := 0, Created := 3 }) }

/-- A comment/submit event from member "M" to the owner of "F" for comment "D"
on post "Q", which is not stored in `example_db`. -/
def example_orphan_submit : Event :=
  { id := "D", from_ := "M", to_ := "F", user := { Identity := { ID := "O", Name := "Owner" } },
    fields := [],
    content := some (Segment.comment
      { ID := "D", Forum := "", Post := "Q", Parent := "", Member := "", Name := "",
        Body := "hi", Up := 0, Down := 0, Created := 0 }) }

/-- The local user "M" asks for a comment on post "P" of forum "F" under the
parent "X", which is not stored in `example_db`. -/
def example_orphan_action : Action :=
  { user := some example_user,
    inputs := [("forum", "F"), ("post", "P"), ("parent", "X"), ("body", "hi")] }

/-- The six role names of the specification, lowest rank first. -/
def role_names : List String :=
  ["disabled", "viewer", "voter", "commenter", "poster", "administrator"]

/-- The role a membership is checked with: the stored role, or "viewer" when
there is no membership record. -/
def held_role (m : Option ForumMember) : String :=
  match m with
  | some m => m.Role
  | none => "viewer"

/-- A node whose database is `example_db` and that has sent nothing. -/
def example_world : World := { db := example_db, outbox := [], saved := [] }

/-- A node whose database is `example_db_commented` and that has sent
nothing. -/
def example_world_commented : World :=
  { db := example_db_commented, outbox := [], saved := [] }

/-- The sender holds no membership row in the forum whose role satisfies
`need`: it is not a member, or its stored role is too low. -/
def unauthorised (db : DB) (forum sender need : String) : Prop :=
  ∀ m ∈ db.members, m.Forum = forum → m.ID = sender → forum_role (some m) need = false

instance unauthorised_decidable (db : DB) (forum sender need : String) :
    Decidable (unauthorised db forum sender need) := by
  unfold unauthorised
  infer_instance

/-- The owner of forum "F". -/
def example_owner : User := { Identity := { ID := "O", Name := "Owner" } }

/-- The owner database: forum "F" with post "P" and its comment "C", the owner
as administrator and member "M" as viewer. -/
def example_owner_db : DB :=
  { example_db_commented with
    members := [{ Forum := "F", ID := "O", Name := "Owner", Role := "administrator" },
                { Forum := "F", ID := "M", Name := "Mallory", Role := "viewer" }] }

/-- The world of the owner of "F" before any message is sent. -/
def example_owner_world : World := { db := example_owner_db, outbox := [], saved := [] }

/-- Viewer "M" submits a comment on post "P". -/
def example_viewer_comment : Event :=
  { id := "D", from_ := "M", to_ := "F", user := example_owner, fields := [],
    content := some (Segment.comment
      { ID := "D", Forum := "", Post := "P", Parent := "", Member := "", Name := "",
        Body := "hi", Up := 0, Down := 0, Created := 0 }) }

/-- Viewer "M" submits a post. -/
def example_viewer_post : Event :=
  { id := "Q", from_ := "M", to_ := "F", user := example_owner, fields := [],
    content := some (Segment.post
      { ID := "Q", Forum := "", Member := "", Name := "", Title := "T", Body := "B",
        Comments := 0, Up := 0, Down := 0, Created := 0, Updated := 0, Attachments := none }) }

/-- An identity "X" without a membership row votes up on post "P". -/
def example_stranger_vote : Event :=
  { id := "E5", from_ := "X", to_ := "F", user := example_owner, fields := [],
    content := some (Segment.vote { Post := "P", Comment := "", Voter := "", Vote := "up" }) }

/-- Viewer "M" votes up on comment "C". -/
def example_viewer_comment_vote : Event :=
  { id := "E6", from_ := "M", to_ := "F", user := example_owner, fields := [],
    content := some (Segment.vote { Post := "", Comment := "C", Voter := "", Vote := "up" }) }

/-- The primary key `( forum, id )` of table `members`: no two rows share
it. -/
def members_key_unique (db : DB) : Prop :=
  (db.members.map fun m => (m.Forum, m.ID)).Nodup

instance members_key_unique_decidable (db : DB) : Decidable (members_key_unique db) := by
  unfold members_key_unique
  infer_instance

/-- The identity `x` is a member of the forum with a role other than
"disabled". -/
def active_member (db : DB) (forum x : String) : Prop :=
  ∃ m ∈ db.members, m.Forum = forum ∧ m.ID = x ∧ m.Role ≠ "disabled"

instance active_member_decidable (db : DB) (forum x : String) :
    Decidable (active_member db forum x) := by
  unfold active_member
  infer_instance

/-- The owner database of the fan-out scenario: forum "F" without posts, the
owner "O", member "M1" with role poster, member "M2" with role disabled and
member "M3" with role commenter. -/
def example_fanout_db : DB :=
  { forums := [example_forum],
    members := [{ Forum := "F", ID := "O", Name := "Owner", Role := "administrator" },
                { Forum := "F", ID := "M1", Name := "One", Role := "poster" },
                { Forum := "F", ID := "M2", Name := "Two", Role := "disabled" },
                { Forum := "F", ID := "M3", Name := "Three", Role := "commenter" }],
    posts := [], comments := [], votes := [] }

/-- The world of the owner in the fan-out scenario. -/
def example_fanout_world : World := { db := example_fanout_db, outbox := [], saved := [] }

/-- The owner creates a post with title "T" and body "B" in forum "F". -/
def example_post_action : Action :=
  { user := some example_owner, inputs := [("forum", "F"), ("title", "T"), ("body", "B")] }

/-- Member "M1" submits post "P" with title "T" and body "B" to forum "F". -/
def example_post_submit : Event :=
  { id := "E7", from_ := "M1", to_ := "F", user := example_owner, fields := [],
    content := some (Segment.post
      { ID := "P", Forum := "", Member := "", Name := "", Title := "T", Body := "B",
        Comments := 0, Up := 0, Down := 0, Created := 0, Updated := 0, Attachments := none }) }

/-- The local user "M", who does not own forum "F", creates a post there. -/
def example_member_post : Action :=
  { user := some example_user, inputs := [("forum", "F"), ("title", "T"), ("body", "B")] }

/-- The local user "M" comments on post "P" of forum "F". -/
def example_member_comment : Action :=
  { user := some example_user,
    inputs := [("forum", "F"), ("post", "P"), ("parent", ""), ("body", "hi")] }

/-- The local user "M" votes up on post "P". -/
def example_member_post_vote : Action :=
  { user := some example_user, inputs := [("post", "P"), ("vote", "up")] }

/-- The local user "M" votes up on comment "C". -/
def example_member_comment_vote : Action :=
  { user := some example_user, inputs := [("comment", "C"), ("vote", "up")] }

instance ForumPost.newer_total : IsTotal ForumPost ForumPost.newer :=
  ⟨fun a b => le_total b.Updated a.Updated⟩

instance ForumPost.newer_trans : IsTrans ForumPost ForumPost.newer :=
  ⟨fun _ _ _ hab hbc => le_trans hbc hab⟩

/-- The posts of a forum, query `select * from posts where forum=?`. -/
def DB.forum_posts (db : DB) (forum : String) : List ForumPost :=
  db.posts.filter fun r => r.Forum == forum

/-- The post/create messages of a catch-up replay of the posts `ps`. -/
def replay_posts (env : Env) (u : User) (f : Forum) (member : String) (ps : List ForumPost) :
    List Message :=
  ps.map fun p =>
    message_post f.ID member "post/create"
      { p with Attachments := env.attachments u (attachments_path f.ID p.ID) }

/-- The comment/create messages of a catch-up replay of the posts `ps`: for
each post in turn, one message per comment stored under it. -/
def replay_comments (db : DB) (f : Forum) (member : String) (ps : List ForumPost) :
    List Message :=
  ps.flatMap fun p =>
    (db.comments_of_post p.ID).map fun c => message_comment f.ID member "comment/create" c

/-- A comment on post `post` for the replay scenario. -/
def example_reply (id post : String) (created : Int) : ForumComment :=
  { ID := id, Forum := "F", Post := post, Parent := "", Member := "A", Name := "Alice",
    Body := "hi", Up := 0, Down := 0, Created := created }

/-- The owner database of the replay scenario: forum "F" with three posts,
last updated at times 3, 9 and 5, and five comments, two under "P1" and three
under "P2". -/
def example_replay_db : DB :=
  { forums := [example_forum],
    members := [{ Forum := "F", ID := "O", Name := "Owner", Role := "administrator" }],
    posts := [{ example_post with ID := "P1", Comments := 2, Updated := 3 },
              { example_post with ID := "P2", Comments := 3, Updated := 9 },
              { example_post with ID := "P3", Updated := 5 }],
    comments := [example_reply "C1" "P1" 2, example_reply "C2" "P2" 3,
                 example_reply "C3" "P2" 4, example_reply "C4" "P1" 5,
                 example_reply "C5" "P2" 6],
    votes := [] }

/-- The world of the owner in the replay scenario. -/
def example_replay_world : World := { db := example_replay_db, outbox := [], saved := [] }

/-! ## Comment tree -/

/-- Rendering helpers of the server that `forum_comments` calls
(`web_markdown`, `time_local`); they are defined outside `forums.go`. -/
structure Render where
  web_markdown : String → String
  time_local : User → Int → String

/-- Go struct `ForumComment` as returned by `forum_comments`: the stored
columns `c` together with the fields that are filled in for rendering. -/
inductive CommentNode where
  | mk (c : ForumComment) (ForumFingerprint BodyMarkdown CreatedString : String)
      (Children : Option (List CommentNode)) (RoleVoter RoleCommenter : Bool)

/-- The stored columns of a node. -/
def CommentNode.c : CommentNode → ForumComment
  | CommentNode.mk c _ _ _ _ _ _ => c

/-- Field `Children` of a node. -/
def CommentNode.Children : CommentNode → Option (List CommentNode)
  | CommentNode.mk _ _ _ _ ch _ _ => ch

/-- Field `RoleVoter` of a node. -/
def CommentNode.RoleVoter : CommentNode → Bool
  | CommentNode.mk _ _ _ _ _ v _ => v

/-- Field `RoleCommenter` of a node. -/
def CommentNode.RoleCommenter : CommentNode → Bool
  | CommentNode.mk _ _ _ _ _ _ k => k

/-- Order of `order by created desc`: `a` comes no later than `b`. -/
def ForumComment.newer (a b : ForumComment) : Prop := b.Created ≤ a.Created

instance ForumComment.newer_decidable : DecidableRel ForumComment.newer :=
  fun a b => inferInstanceAs (Decidable (b.Created ≤ a.Created))

instance ForumComment.newer_total : IsTotal ForumComment ForumComment.newer :=
  ⟨fun a b => le_total b.Created a.Created⟩

instance ForumComment.newer_trans : IsTrans ForumComment ForumComment.newer :=
  ⟨fun _ _ _ hab hbc => le_trans hbc hab⟩

/-- The rows of `select * from comments where forum=? and post=? and parent=?`
before ordering. -/
def DB.replies (db : DB) (forum post parent : String) : List ForumComment :=
  db.comments.filter fun r => r.Forum == forum && r.Post == post && r.Parent == parent

/-- Query `select * from comments where forum=? and post=? and parent=? order by
created desc`. -/
def DB.comments_under (db : DB) (forum post parent : String) : List ForumComment :=
  (db.replies forum post parent).insertionSort ForumComment.newer

/-- Function `forum_comments`: get comments recursively. The result is nil
beyond depth 1000; the recursion is on `1001 - depth`. -/
def forum_comments (env : Env) (rd : Render) (u : User) (db : DB) (f : Forum)
    (m : Option ForumMember) (p : ForumPost) (parent : Option ForumComment) (depth : Nat) :
    Option (List CommentNode) :=
  if h : depth > 1000 then none
  else
    let id := match parent with
      | some c => c.ID
      | none => ""
    some ((db.comments_under f.ID p.ID id).map fun c =>
      CommentNode.mk c (env.fingerprint c.Forum) (rd.web_markdown c.Body)
        (rd.time_local u c.Created)
        (forum_comments env rd u db f m p (some c) (depth + 1))
        (forum_role m "voter") (forum_role m "commenter"))
termination_by 1001 - depth
decreasing_by omega

mutual
/-- The nodes at depth `k` below a node, the node itself being at depth 0. -/
def CommentNode.nodes_at : Nat → CommentNode → List CommentNode
  | 0, n => [n]
  | k + 1, CommentNode.mk _ _ _ _ ch _ _ => children_at k ch
/-- The nodes at depth `k` of a result of `forum_comments`, its top-level
comments being at depth 0. -/
def children_at : Nat → Option (List CommentNode) → List CommentNode
  | _, none => []
  | k, some ns => forest_at k ns
/-- The nodes at depth `k` of a list of trees. -/
def forest_at : Nat → List CommentNode → List CommentNode
  | _, [] => []
  | k, n :: ns => CommentNode.nodes_at k n ++ forest_at k ns
end

/-- Rendering helpers for the worked examples. -/
def example_render : Render :=
  { web_markdown := fun s => s, time_local := fun _ t => toString t }

/-- A comment whose identifier and parent are both the empty string: it is
its own parent, a cycle of length one that starts at the top level. -/
def example_loop_comment : ForumComment :=
  { ID := "", Forum := "F", Post := "P", Parent := "", Member := "A", Name := "Alice",
    Body := "hi", Up := 0, Down := 0, Created := 2 }

/-- A database whose only comment is its own parent. -/
def example_loop_db : DB :=
  { example_db with comments := [example_loop_comment] }

/-- A database with a small thread on post "P": top-level comments "C1"
(created 2) and "C2" (created 5), and "C3" (created 6) in reply to "C1". -/
def example_tree_db : DB :=
  { example_db with
    comments := [example_reply "C1" "P" 2, example_reply "C2" "P" 5,
                 { example_reply "C3" "P" 6 with Parent := "C1" }] }

/-- The owner database of the submission scenarios: the members of
`example_fanout_db` and post "P". -/
def example_submit_db : DB := { example_fanout_db with posts := [example_post] }

/-- The world of the owner in the submission scenarios. -/
def example_submit_world : World := { db := example_submit_db, outbox := [], saved := [] }

/-- Member "M1" submits comment "D" on post "P"; the event itself has the
identifier "E9". -/
def example_comment_submit : Event :=
  { id := "E9", from_ := "M1", to_ := "F", user := example_owner, fields := [],
    content := some (Segment.comment
      { ID := "D", Forum := "", Post := "P", Parent := "", Member := "", Name := "",
        Body := "hi", Up := 0, Down := 0, Created := 0 }) }

/-- Member "M1" submits post "Q" and sets up 7, down 3 and comments 9 in the
payload. -/
def example_inflated_submit : Event :=
  { id := "E10", from_ := "M1", to_ := "F", user := example_owner, fields := [],
    content := some (Segment.post
      { ID := "Q", Forum := "", Member := "", Name := "", Title := "T", Body := "B",
        Comments := 9, Up := 7, Down := 3, Created := 0, Updated := 0, Attachments := none }) }

/-- The event a member receives for a message of the outbox. -/
def Message.deliver (g : Message) (id : String) (user : User) : Event :=
  { id := id, from_ := g.from_, to_ := g.to_, user := user, fields := g.fields,
    content := g.content }

/-- The local user "M3", a member of forum "F". -/
def example_member3 : User := { Identity := { ID := "M3", Name := "Three" } }

/-! ## Membership and forum lifecycle -/

/-- A directory entry as returned by `directory_by_id`: the name of the forum
and its data. -/
structure DirectoryEntry where
  Name : String
  Data : String
deriving DecidableEq

/-- Services of the server used by the lifecycle handlers; they are defined
outside `forums.go`. `entity_create` returns nil on error, `json_decode_member`
is `json_decode` into a `ForumMember`, `json_encode_role` is `json_encode` of
the map with the single key "role". -/
structure Services where
  entity_create : User → String → String → String → String → Option Entity
  json_encode_role : String → String
  directory_by_id : String → Option DirectoryEntry
  json_decode_member : String → Option ForumMember
  itoa : Nat → String

/-- Statement `update forums set ... where id=?`, the assignments given by
`g`. -/
def DB.update_forums (db : DB) (id : String) (g : Forum → Forum) : DB :=
  { db with forums := db.forums.map fun r => if r.ID = id then g r else r }

/-- Statement `replace into forums`: primary key `id`. -/
def DB.replace_forum (db : DB) (r : Forum) : DB :=
  { db with forums := db.forums.filter (fun x => x.ID != r.ID) ++ [r] }

/-- Statement `insert or ignore into members`: the row is added unless a row
with its primary key `( forum, id )` exists. -/
def DB.insert_or_ignore_member (db : DB) (r : ForumMember) : DB :=
  if db.members.any fun x => x.Forum == r.Forum && x.ID == r.ID then db
  else { db with members := db.members ++ [r] }

/-- Statement `update members set role=? where forum=? and id=?`. -/
def DB.set_member_role (db : DB) (role forum id : String) : DB :=
  { db with
    members := db.members.map fun r =>
      if r.Forum = forum ∧ r.ID = id then { r with Role := role } else r }

/-- Function `forum_update`: send updated forum details to members. -/
def forum_update (sv : Services) (u : User) (w : World) (f : Forum) (now : Int) : World :=
  let ms := w.db.active_members f.ID
  let db1 := w.db.update_forums f.ID fun r =>
    { r with Members := (ms.length : Int), Updated := now }
  let w1 : World := { w with db := db1 }
  w1.send_all ((ms.filter fun m => m.ID != u.Identity.ID).map fun m =>
    message_set f.ID m.ID "update" "members" (sv.itoa ms.length))

/-- Function `forums_subscribe_event`: received a subscribe from a member;
`now1` is the clock of the member count statement, `now2` the reading of
`forum_update`. -/
def forums_subscribe_event (env : Env) (sv : Services) (w : World) (e : Event)
    (now1 now2 : Int) : World :=
  match forum_by_id env (some e.user) w.db e.to_ with
  | none => w
  | some f =>
    let name := e.get "name" ""
    if !env.valid name "line" then w
    else
      let db1 := w.db.insert_or_ignore_member
        { Forum := f.ID, ID := e.from_, Name := name, Role := f.Role }
      let db2 := db1.update_forums f.ID fun r =>
        { r with Members := ((db1.active_members f.ID).length : Int), Updated := now1 }
      let w1 : World := { w with db := db2 }
      let w2 : World :=
        if f.Role != "disabled" then forum_send_recent_posts env e.user w1 f e.from_ else w1
      forum_update sv e.user w2 f now2

/-- Function `forums_member_update_event`: member update from owner. The scan
of the old row only fed a notification that has been removed. -/
def forums_member_update_event (env : Env) (w : World) (e : Event) : World :=
  match forum_by_id env (some e.user) w.db e.from_ with
  | none => w
  | some _ =>
    let role := e.get "role" ""
    match forum_roles.lookup role with
    | none => w
    | some _ =>
      { w with
        db := w.db.replace_member
          { Forum := e.from_, ID := e.user.Identity.ID, Name := "", Role := role } }

/-- Function `forums_unsubscribe_event`: received an unsubscribe from a
member. -/
def forums_unsubscribe_event (env : Env) (sv : Services) (w : World) (e : Event) (now : Int) :
    World :=
  match forum_by_id env (some e.user) w.db e.to_ with
  | none => w
  | some f =>
    let db1 : DB :=
      { w.db with
        members := w.db.members.filter fun r => !(r.Forum == e.to_ && r.ID == e.from_) }
    forum_update sv e.user { w with db := db1 } f now

/-- Function `forums_update_event`: received a forum update event from the
owner. The text of the member count is stored in an integer column. -/
def forums_update_event (env : Env) (w : World) (e : Event) (now : Int) : World :=
  match forum_by_id env (some e.user) w.db e.from_ with
  | none => w
  | some f =>
    let members := e.get "members" "0"
    if !env.valid members "natural" then w
    else
      { w with
        db := w.db.update_forums f.ID fun r =>
          { r with Members := ((members.toNat?.getD 0 : Nat) : Int), Updated := now } }

/-- Function `forums_comment_update_event`: received a forum comment update
event. -/
def forums_comment_update_event (w : World) (e : Event) (now : Int) : World :=
  match e.segment_comment with
  | none => w
  | some c =>
    match w.db.comments.find? fun r => r.Forum == e.from_ && r.ID == c.ID with
    | none => w
    | some o =>
      let db1 := w.db.update_comments o.ID fun r => { r with Up := c.Up, Down := c.Down }
      let db2 := db1.update_posts o.Post fun r => { r with Updated := now }
      { w with db := db2.forums_set_updated now o.Forum }

/-- Function `forums_post_update_event`: received a forum post update event. -/
def forums_post_update_event (w : World) (e : Event) (now : Int) : World :=
  match e.segment_post with
  | none => w
  | some p =>
    if !(w.db.posts.any fun r => r.Forum == e.from_ && r.ID == p.ID) then w
    else
      let db1 := w.db.update_posts p.ID fun r =>
        { r with Updated := now, Up := p.Up, Down := p.Down }
      { w with db := db1.forums_set_updated now e.from_ }

/-- Function `forums_create`: create a new forum. -/
def forums_create (env : Env) (sv : Services) (w : World) (a : Action) (now : Int) :
    World × Reply :=
  match a.user with
  | none => (w, Reply.error 401 "Not logged in")
  | some u =>
    let name := a.input "name"
    if !env.valid name "name" then (w, Reply.error 400 "Invalid name")
    else
      let role := a.input "role"
      match forum_roles.lookup role with
      | none => (w, Reply.error 400 "Invalid role")
      | some _ =>
        let privacy := a.input "privacy"
        if !env.valid privacy "^(public|private)$" then (w, Reply.error 400 "Invalid privacy")
        else
          match sv.entity_create u "forum" name privacy (sv.json_encode_role role) with
          | none => (w, Reply.error 500 "Unable to create entity")
          | some e =>
            let db1 := w.db.replace_forum
              { ID := e.ID, Fingerprint := e.Fingerprint, Name := name, Role := role,
                Members := 1, Updated := now, Entity := none }
            let db2 := db1.replace_member
              { Forum := e.ID, ID := u.Identity.ID, Name := u.Identity.Name,
                Role := "administrator" }
            ({ w with db := db2 }, Reply.template "forums/create")

/-- Byte-wise order of two texts given as lists of code points, the order of
the `text` columns of an index: a proper prefix comes first. -/
def text_le : List Nat → List Nat → Bool
  | [], _ => true
  | _ :: _, [] => false
  | x :: xs, y :: ys => if x < y then true else if y < x then false else text_le xs ys

/-- Order of the member rows of one forum in the index of the primary key
`( forum, id )`: by `id`. -/
def ForumMember.key_le (a b : ForumMember) : Prop :=
  text_le (a.ID.data.map Char.toNat) (b.ID.data.map Char.toNat) = true

instance ForumMember.key_le_decidable : DecidableRel ForumMember.key_le :=
  fun a b =>
    inferInstanceAs
      (Decidable (text_le (a.ID.data.map Char.toNat) (b.ID.data.map Char.toNat) = true))

/-- The loop of `forums_members_save` over the members scanned before it; the
flag is false when the loop returned early with `Invalid role`. -/
def members_save_loop (env : Env) (u : User) (f : Forum) (a : Action) :
    List ForumMember → World → World × Bool
  | [], w => (w, true)
  | m :: ms, w =>
    let role := a.input ("role_" ++ m.ID)
    if role != m.Role then
      match forum_roles.lookup role with
      | none => (w, false)
      | some _ =>
        let w1 : World := { w with db := w.db.set_member_role role f.ID m.ID }
        let w2 := w1.send (message_set f.ID m.ID "member/update" "role" role)
        let w3 := if m.Role == "disabled" then forum_send_recent_posts env u w2 f m.ID else w2
        members_save_loop env u f a ms w3
    else members_save_loop env u f a ms w

/-- Function `forums_members_save`: save members. The loop can return early, so
the order of its scan `select * from members where forum=? and id!=?` shows:
the rows are taken in the order of the primary key index that serves the
query, that is by `id`. -/
def forums_members_save (env : Env) (sv : Services) (w : World) (a : Action) (now : Int) :
    World × Reply :=
  match a.user with
  | none => (w, Reply.error 401 "Not logged in")
  | some u =>
    match forum_by_id env (some u) w.db (a.input "forum") with
    | none => (w, Reply.error 404 "Forum not found")
    | some f =>
      match f.Entity with
      | none => (w, Reply.error 404 "Forum not found")
      | some _ =>
        let ms := (w.db.members.filter fun m =>
          m.Forum == f.ID && m.ID != u.Identity.ID).insertionSort ForumMember.key_le
        let s := members_save_loop env u f a ms w
        if s.2 then (forum_update sv u s.1 f now, Reply.template "forums/members/save")
        else (s.1, Reply.error 400 "Invalid role")

/-- Function `forums_subscribe`: subscribe to a forum. -/
def forums_subscribe (env : Env) (sv : Services) (w : World) (a : Action) (now : Int) :
    World × Reply :=
  match a.user with
  | none => (w, Reply.error 401 "Not logged in")
  | some u =>
    let forum := a.input "forum"
    if !env.valid forum "entity" then (w, Reply.error 400 "Invalid ID")
    else
      match forum_by_id env (some u) w.db forum with
      | some _ => (w, Reply.error 400 "You are already subscribed to this forum")
      | none =>
        match sv.directory_by_id forum with
        | none => (w, Reply.error 404 "Unable to find forum in directory")
        | some d =>
          match sv.json_decode_member d.Data with
          | none => (w, Reply.error 400 "Forum directory entry does not contain data")
          | some m =>
            let db1 := w.db.replace_forum
              { ID := forum, Fingerprint := env.fingerprint forum, Name := d.Name, Role := "",
                Members := 1, Updated := now, Entity := none }
            let db2 := db1.replace_member
              { Forum := forum, ID := u.Identity.ID, Name := u.Identity.Name, Role := m.Role }
            let w1 : World := { w with db := db2 }
            (w1.send (message_set u.Identity.ID forum "subscribe" "name" u.Identity.Name),
              Reply.template "forums/subscribe")

/-- Function `forums_unsubscribe`: unsubscribe from a forum. -/
def forums_unsubscribe (env : Env) (w : World) (a : Action) : World × Reply :=
  match a.user with
  | none => (w, Reply.error 401 "Not logged in")
  | some u =>
    match forum_by_id env (some u) w.db (a.input "forum") with
    | none => (w, Reply.error 404 "Forum not found")
    | some f =>
      let db1 : DB :=
        { forums := w.db.forums.filter fun r => r.ID != f.ID,
          members := w.db.members.filter fun r => r.Forum != f.ID,
          posts := w.db.posts.filter fun r => r.Forum != f.ID,
          comments := w.db.comments.filter fun r => r.Forum != f.ID,
          votes := w.db.votes.filter fun r => r.Forum != f.ID }
      let w1 : World := { w with db := db1 }
      (w1.send (message_empty u.Identity.ID f.ID "unsubscribe"),
        Reply.template "forums/unsubscribe")

/-- Services for the worked examples: the directory knows forum "F" with
default role "commenter", and entities cannot be created. -/
def example_services : Services :=
  { entity_create := fun _ _ _ _ _ => none,
    json_encode_role := fun r => r,
    directory_by_id := fun id =>
      if id = "F" then some { Name := "Forum", Data := "commenter" } else none,
    json_decode_member := fun d => some { Forum := "", ID := "", Name := "", Role := d },
    itoa := fun n => toString n }

/-- The disabled member "M2" of forum "F" sends a subscribe event. -/
def example_resubscribe : Event :=
  { id := "E12", from_ := "M2", to_ := "F", user := example_owner, fields := [("name", "Two")],
    content := none }

/-- The database of member "M": forum "F" and the membership row of "M" with
display name "Mallory" and role viewer. -/
def example_member_db : DB :=
  { example_db with
    members := [{ Forum := "F", ID := "M", Name := "Mallory", Role := "viewer" }] }

/-- The world of member "M". -/
def example_member_world : World := { db := example_member_db, outbox := [], saved := [] }

/-- The owner "F" tells member "M" that its role is now voter. -/
def example_role_update : Event :=
  { id := "E13", from_ := "F", to_ := "M", user := example_user, fields := [("role", "voter")],
    content := none }

/-! ## The node as a state machine -/

/-- One unit of work of the node: a local action that writes to the store, or
an inbound event, as registered in `init`, with the readings of `now()` and
`uid()` it makes. The paths that only render a page are left out. -/
inductive Input where
  | comment_create (a : Action) (now : Int) (uid : String)
  | comment_create_event (e : Event)
  | comment_submit_event (e : Event) (now : Int)
  | comment_update_event (e : Event) (now : Int)
  | comment_vote (a : Action) (now : Int)
  | comment_vote_event (e : Event) (now : Int)
  | create (a : Action) (now : Int)
  | members_save (a : Action) (now : Int)
  | member_update_event (e : Event)
  | post_create (a : Action) (now : Int) (uid : String)
  | post_create_event (e : Event) (now : Int)
  | post_submit_event (e : Event) (now1 now2 : Int)
  | post_update_event (e : Event) (now : Int)
  | post_vote (a : Action) (now : Int)
  | post_vote_event (e : Event) (now : Int)
  | subscribe (a : Action) (now : Int)
  | subscribe_event (e : Event) (now1 now2 : Int)
  | unsubscribe (a : Action)
  | unsubscribe_event (e : Event) (now : Int)
  | update_event (e : Event) (now : Int)

/-- The world after one unit of work. -/
def step (env : Env) (sv : Services) (w : World) : Input → World
  | Input.comment_create a now uid => (forums_comment_create env w a now uid).1
  | Input.comment_create_event e => forums_comment_create_event env w e
  | Input.comment_submit_event e now => forums_comment_submit_event env w e now
  | Input.comment_update_event e now => forums_comment_update_event w e now
  | Input.comment_vote a now => (forums_comment_vote env w a now).1
  | Input.comment_vote_event e now => forums_comment_vote_event env w e now
  | Input.create a now => (forums_create env sv w a now).1
  | Input.members_save a now => (forums_members_save env sv w a now).1
  | Input.member_update_event e => forums_member_update_event env w e
  | Input.post_create a now uid => (forums_post_create env w a now uid).1
  | Input.post_create_event e now => forums_post_create_event env w e now
  | Input.post_submit_event e now1 now2 => forums_post_submit_event env w e now1 now2
  | Input.post_update_event e now => forums_post_update_event w e now
  | Input.post_vote a now => (forums_post_vote env w a now).1
  | Input.post_vote_event e now => forums_post_vote_event env w e now
  | Input.subscribe a now => (forums_subscribe env sv w a now).1
  | Input.subscribe_event e now1 now2 => forums_subscribe_event env sv w e now1 now2
  | Input.unsubscribe a => (forums_unsubscribe env w a).1
  | Input.unsubscribe_event e now => forums_unsubscribe_event env sv w e now
  | Input.update_event e now => forums_update_event env w e now

/-- The world after a sequence of units of work, oldest first. -/
def run (env : Env) (sv : Services) (w : World) (inputs : List Input) : World :=
  inputs.foldl (step env sv) w

/-- The node before it has stored or sent anything. -/
def World.empty : World :=
  { db := { forums := [], members := [], posts := [], comments := [], votes := [] },
    outbox := [], saved := [] }

/-- The readings of the local clock `now()` that a unit of work makes, in
order. -/
def Input.clock : Input → List Int
  | Input.comment_create _ now _ => [now]
  | Input.comment_create_event _ => []
  | Input.comment_submit_event _ now => [now]
  | Input.comment_update_event _ now => [now]
  | Input.comment_vote _ now => [now]
  | Input.comment_vote_event _ now => [now]
  | Input.create _ now => [now]
  | Input.members_save _ now => [now]
  | Input.member_update_event _ => []
  | Input.post_create _ now _ => [now]
  | Input.post_create_event _ now => [now]
  | Input.post_submit_event _ now1 now2 => [now1, now2]
  | Input.post_update_event _ now => [now]
  | Input.post_vote _ now => [now]
  | Input.post_vote_event _ now => [now]
  | Input.subscribe _ now => [now]
  | Input.subscribe_event _ now1 now2 => [now1, now2]
  | Input.unsubscribe _ => []
  | Input.unsubscribe_event _ now => [now]
  | Input.update_event _ now => [now]

/-- The post that a unit of work can bump, and the timestamp it then writes
into `updated` of that post: the reading of the local clock for the local
actions and the handlers of submissions, votes and updates, the creation time
carried by the event for an inbound comment/create. The post is resolved
against the store as the handler resolves it. Units of work that insert a post
or do not write to table `posts` bump nothing. -/
def Input.bump (w : World) : Input → Option (String × Int)
  | Input.comment_create a now _ => some (a.input "post", now)
  | Input.comment_create_event e => e.segment_comment.map fun c => (c.Post, c.Created)
  | Input.comment_submit_event e now => e.segment_comment.map fun c => (c.Post, now)
  | Input.comment_update_event e now =>
    match e.segment_comment with
    | none => none
    | some c =>
      (w.db.comments.find? fun r => r.Forum == e.from_ && r.ID == c.ID).map fun o =>
        (o.Post, now)
  | Input.comment_vote a now =>
    (w.db.comments.find? fun r => r.ID == a.input "comment").map fun c => (c.Post, now)
  | Input.comment_vote_event e now =>
    match e.segment_vote with
    | none => none
    | some v => (w.db.comments.find? fun r => r.ID == v.Comment).map fun c => (c.Post, now)
  | Input.post_update_event e now => e.segment_post.map fun p => (p.ID, now)
  | Input.post_vote a now =>
    (w.db.posts.find? fun r => r.ID == a.input "post").map fun p => (p.ID, now)
  | Input.post_vote_event e now =>
    match e.segment_vote with
    | none => none
    | some v => (w.db.posts.find? fun r => r.ID == v.Post).map fun p => (p.ID, now)
  | _ => none

/-- The timestamp with which a unit of work can bump a post is not earlier
than the creation time of that post as stored. -/
def bump_ok (w : World) (i : Input) : Prop :=
  ∀ b ∈ i.bump w, ∀ p ∈ w.db.posts, p.ID = b.1 → p.Created ≤ b.2

instance bump_ok_decidable (w : World) (i : Input) : Decidable (bump_ok w i) := by
  unfold bump_ok
  infer_instance

/-- Along a run from `w`, every unit of work that changes table `posts`
satisfies `bump_ok` in the store it is applied to; nothing is required of a
unit of work that is dropped or leaves the table as it is. -/
def bumps_ok (env : Env) (sv : Services) : World → List Input → Prop
  | _, [] => True
  | w, i :: is =>
    ((step env sv w i).db.posts = w.db.posts ∨ bump_ok w i) ∧
      bumps_ok env sv (step env sv w i) is

instance bumps_ok_decidable (env : Env) (sv : Services) :
    (w : World) → (is : List Input) → Decidable (bumps_ok env sv w is)
  | _, [] => isTrue trivial
  | w, i :: is =>
    have := bumps_ok_decidable env sv (step env sv w i) is
    inferInstanceAs
      (Decidable (((step env sv w i).db.posts = w.db.posts ∨ bump_ok w i) ∧
        bumps_ok env sv (step env sv w i) is))

/-- Every row of `new` stems from a row of `old` with the same identifier and
creation time, and its update time is the old one unless the row is post `id`
and the update time is `t`. -/
def posts_bumped (id : String) (t : Int) (old new : List ForumPost) : Prop :=
  ∀ q ∈ new, ∃ p ∈ old, q.ID = p.ID ∧ q.Created = p.Created ∧
    (q.Updated = p.Updated ∨ (p.ID = id ∧ q.Updated = t))

/-- Every row of `new` stems from a row of `old` with the same identifier and
creation time, its update time being the old one or the bump `b` of that post,
or is a row whose update time is its creation time. -/
def posts_step (b : Option (String × Int)) (old new : List ForumPost) : Prop :=
  ∀ q ∈ new,
    (∃ p ∈ old, q.ID = p.ID ∧ q.Created = p.Created ∧
      (q.Updated = p.Updated ∨ b = some (p.ID, q.Updated))) ∨
    q.Updated = q.Created

/-- Member "M" subscribes to "F" at local time 1, receives post "P" created at
owner time 10 (local time 2), then receives a comment on "P" created at
time 5. -/
def example_skewed_inputs : List Input :=
  [Input.subscribe { user := some example_user, inputs := [("forum", "F")] } 1,
   Input.post_create_event
     { example_post_create with
       content := some (Segment.post { wire_post example_post with Created := 10 }) } 2,
   Input.comment_create_event
     { example_comment_create with
       content := some (Segment.comment { wire_comment example_comment with Created := 5 }) }]

/-- Member "M" subscribes to "F" at local time 100 and is sent the forum: post
"P1" created at time 5 arrives at local time 101, post "P2" created at time 6
at local time 102, then a comment on "P1" created at time 7. The timestamps the
node uses are not in ascending order. -/
def example_replayed_inputs : List Input :=
  [Input.subscribe { user := some example_user, inputs := [("forum", "F")] } 100,
   Input.post_create_event
     { example_post_create with
       content := some
         (Segment.post { wire_post example_post with ID := "P1", Created := 5 }) } 101,
   Input.post_create_event
     { example_post_create with
       content := some
         (Segment.post { wire_post example_post with ID := "P2", Created := 6 }) } 102,
   Input.comment_create_event
     { example_comment_create with
       content := some
         (Segment.comment { wire_comment example_comment with Post := "P1", Created := 7 }) }]

/-! # Properties -/

/-! ## Helper lemmas -/

theorem find?_eq_head?_filter {α : Type} (p : α → Bool) (l : List α) :
    l.find? p = (l.filter p).head? := by
  induction l with
  | nil => rfl
  | cons a l ih =>
    by_cases h : p a = true
    · rw [List.find?_cons, List.filter_cons, h]
      rfl
    · simp only [Bool.not_eq_true] at h
      rw [List.find?_cons, List.filter_cons, h]
      exact ih

theorem latest_vote_snoc (h : List PostVoteCall) (c : PostVoteCall) (v : String) :
    latest_vote (h ++ [c]) v = if c.voter = v then some c.vote else latest_vote h v := by
  simp [latest_vote, List.foldl_append]

theorem latest_vote_mem (h : List PostVoteCall) (v x : String) (hl : latest_vote h v = some x) :
    v ∈ (h.map fun c => c.voter).toFinset ∧ ∃ c ∈ h, c.vote = x := by
  induction h using List.reverseRecOn generalizing x with
  | nil => simp [latest_vote] at hl
  | append_singleton h c ih =>
    rw [latest_vote_snoc] at hl
    by_cases hv : c.voter = v
    · rw [if_pos hv] at hl
      refine ⟨by simp [hv.symm], c, by simp, by simpa using hl⟩
    · rw [if_neg hv] at hl
      obtain ⟨h1, c', h2, h3⟩ := ih x hl
      refine ⟨?_, c', by simp [h2], h3⟩
      simp only [List.mem_toFinset, List.mem_map] at h1 ⊢
      obtain ⟨a, ha, hav⟩ := h1
      exact ⟨a, by simp [ha], hav⟩

theorem voters_with_snoc (h : List PostVoteCall) (c : PostVoteCall) (x : String) :
    voters_with (h ++ [c]) x =
      if c.vote = x then insert c.voter ((voters_with h x).erase c.voter)
      else (voters_with h x).erase c.voter := by
  ext v
  by_cases hx : c.vote = x <;> by_cases hv : c.voter = v
  · subst hv
    simp [voters_with, latest_vote_snoc, hx]
  · have hv' : v ≠ c.voter := fun e => hv e.symm
    simp only [voters_with, latest_vote_snoc, if_neg hv, if_pos hx, Finset.mem_filter,
      Finset.mem_insert, Finset.mem_erase, List.mem_toFinset, List.map_append, List.mem_append,
      List.map_cons, List.map_nil, List.mem_singleton]
    constructor
    · rintro ⟨h1 | h1, h2⟩
      · exact Or.inr ⟨hv', h1, h2⟩
      · exact absurd h1 hv'
    · rintro (h1 | ⟨_, h1, h2⟩)
      · exact absurd h1 hv'
      · exact ⟨Or.inl h1, h2⟩
  · subst hv
    simp [voters_with, latest_vote_snoc, hx]
  · have hv' : v ≠ c.voter := fun e => hv e.symm
    simp only [voters_with, latest_vote_snoc, if_neg hv, if_neg hx, Finset.mem_filter,
      Finset.mem_erase, List.mem_toFinset, List.map_append, List.mem_append,
      List.map_cons, List.map_nil, List.mem_singleton]
    constructor
    · rintro ⟨h1 | h1, h2⟩
      · exact ⟨hv', h1, h2⟩
      · exact absurd h1 hv'
    · rintro ⟨_, h1, h2⟩
      exact ⟨Or.inl h1, h2⟩

theorem voters_with_card_snoc (h : List PostVoteCall) (c : PostVoteCall) (x : String) :
    ((voters_with (h ++ [c]) x).card : Int) =
      (voters_with h x).card - (if latest_vote h c.voter = some x then 1 else 0)
        + (if c.vote = x then 1 else 0) := by
  have hmem : c.voter ∈ voters_with h x ↔ latest_vote h c.voter = some x := by
    constructor
    · intro hm
      exact (Finset.mem_filter.mp hm).2
    · intro hl
      exact Finset.mem_filter.mpr ⟨(latest_vote_mem h c.voter x hl).1, hl⟩
  have herase : (((voters_with h x).erase c.voter).card : Int) =
      (voters_with h x).card - (if latest_vote h c.voter = some x then 1 else 0) := by
    by_cases hl : latest_vote h c.voter = some x
    · have hm := hmem.mpr hl
      have hpos : 0 < (voters_with h x).card := Finset.card_pos.mpr ⟨_, hm⟩
      rw [Finset.card_erase_of_mem hm, if_pos hl]
      omega
    · have hm : c.voter ∉ voters_with h x := fun hm => hl (hmem.mp hm)
      rw [Finset.erase_eq_of_not_mem hm, if_neg hl]
      simp
  rw [voters_with_snoc]
  by_cases hx : c.vote = x
  · rw [if_pos hx, if_pos hx, Finset.card_insert_of_not_mem (Finset.not_mem_erase _ _)]
    push_cast
    rw [herase]
  · rw [if_neg hx, if_neg hx, herase]
    simp

theorem filter_swap {α : Type} (p q : α → Bool) (l : List α) :
    (l.filter p).filter q = (l.filter q).filter p := by
  rw [List.filter_filter, List.filter_filter]
  congr 1
  funext a
  exact Bool.and_comm _ _

/-- What `forums_post_vote_set` does to table `votes`. -/
theorem post_vote_set_votes (db : DB) (p : ForumPost) (voter vote : String) (now : Int) :
    (forums_post_vote_set db p voter vote now).1.votes =
      db.votes.filter (fun x => !x.same_key (post_vote_row p.Forum p.ID voter vote))
        ++ [post_vote_row p.Forum p.ID voter vote] := by
  unfold forums_post_vote_set
  cases db.votes.find? (fun r => r.Post == p.ID && r.Voter == voter) <;>
    simp only [] <;> (repeat' split) <;>
    simp [DB.replace_vote, DB.update_posts, DB.forums_set_updated, post_vote_row]

/-- What `forums_post_vote_set` does to table `posts` for a choice of "up" or
"down". -/
theorem post_vote_set_posts (db : DB) (p : ForumPost) (voter vote : String) (now : Int)
    (hv : vote = "up" ∨ vote = "down") :
    (forums_post_vote_set db p voter vote now).1.posts =
      db.posts.map (fun r =>
        if r.ID = p.ID then
          { r with
            Up := r.Up
              - prior_vote (db.votes.find? fun r => r.Post == p.ID && r.Voter == voter) "up"
              + (if vote = "up" then 1 else 0),
            Down := r.Down
              - prior_vote (db.votes.find? fun r => r.Post == p.ID && r.Voter == voter) "down"
              + (if vote = "down" then 1 else 0),
            Updated := now }
        else r) := by
  unfold forums_post_vote_set
  have hud : ("up" : String) ≠ "down" := by decide
  have hdu : ("down" : String) ≠ "up" := by decide
  cases hfind : db.votes.find? (fun r => r.Post == p.ID && r.Voter == voter) with
  | none =>
    rcases hv with hv | hv <;> subst hv <;>
      simp [DB.replace_vote, DB.update_posts, DB.forums_set_updated, prior_vote, hud, hdu]
  | some o =>
    by_cases h1 : o.Vote = "up"
    · rcases hv with hv | hv <;> subst hv <;>
        simp [DB.replace_vote, DB.update_posts, DB.forums_set_updated, prior_vote, hud, hdu, h1,
          List.map_map, Function.comp_def] <;>
        intro r _ <;> split <;> simp_all
    · by_cases h2 : o.Vote = "down"
      · rcases hv with hv | hv <;> subst hv <;>
          simp [DB.replace_vote, DB.update_posts, DB.forums_set_updated, prior_vote, hud, hdu, h2,
            List.map_map, Function.comp_def] <;>
          intro r _ <;> split <;> simp_all
      · rcases hv with hv | hv <;> subst hv <;>
          simp [DB.replace_vote, DB.update_posts, DB.forums_set_updated, prior_vote, hud, hdu, h1,
            h2]

/-- One call of `forums_post_vote_set` on the post keeps the ledger exact. -/
theorem post_vote_set_inv (db0 db : DB) (pid fid : String) (h : List PostVoteCall)
    (c : PostVoteCall) (hinv : PostVoteInv db0 db pid fid h)
    (hid : c.p.ID = pid) (hf : c.p.Forum = fid) (hv : c.vote = "up" ∨ c.vote = "down") :
    PostVoteInv db0 (forums_post_vote_set db c.p c.voter c.vote c.now).1 pid fid (h ++ [c]) := by
  obtain ⟨hA, hB, hC⟩ := hinv
  have hscan : ∀ x, prior_vote (db.votes.find? fun r => r.Post == c.p.ID && r.Voter == c.voter) x
      = if latest_vote h c.voter = some x then 1 else 0 := by
    intro x
    have := hA c.voter
    rw [DB.votes_of] at this
    rw [find?_eq_head?_filter, hid, this]
    cases latest_vote h c.voter <;> simp [prior_vote, post_vote_row]
  refine ⟨?_, ?_, ?_⟩
  · intro v
    rw [DB.votes_of, post_vote_set_votes, List.filter_append, filter_swap, hid, hf]
    have := hA v
    rw [DB.votes_of] at this
    rw [this, latest_vote_snoc]
    by_cases hcv : c.voter = v
    · subst hcv
      cases latest_vote h c.voter <;>
        simp [post_vote_row, VoteRow.same_key]
    · have hcv' : ¬ v = c.voter := fun e => hcv e.symm
      cases latest_vote h v <;>
        simp [post_vote_row, VoteRow.same_key, hcv, hcv']
  · intro r hr hrid
    rw [post_vote_set_posts _ _ _ _ _ hv] at hr
    obtain ⟨r0, hr0, rfl⟩ := List.mem_map.mp hr
    have hr0id : r0.ID = pid := by
      by_cases e : r0.ID = c.p.ID
      · rw [e, hid]
      · rw [if_neg e] at hrid
        exact hrid
    obtain ⟨hup, hdown⟩ := hB r0 hr0 hr0id
    have e : r0.ID = c.p.ID := by rw [hr0id, hid]
    rw [if_pos e]
    simp only [hscan]
    rw [voters_with_card_snoc, voters_with_card_snoc, hup, hdown]
    exact ⟨rfl, rfl⟩
  · rw [post_vote_set_posts _ _ _ _ _ hv, List.map_map, ← hC]
    apply List.map_congr_left
    intro r _
    simp only [Function.comp]
    split <;> rfl

/-- A sequence of `forums_post_vote_set` calls on the post keeps the ledger
exact. -/
theorem post_votes_run_inv (db : DB) (pid fid : String) (calls : List PostVoteCall)
    (hvotes : ∀ r ∈ db.votes, r.Post ≠ pid)
    (hposts : ∀ r ∈ db.posts, r.ID = pid → r.Up = 0 ∧ r.Down = 0)
    (hcalls : ∀ c ∈ calls, c.p.ID = pid ∧ c.p.Forum = fid ∧ (c.vote = "up" ∨ c.vote = "down")) :
    PostVoteInv db (post_votes_run db calls) pid fid calls := by
  induction calls using List.reverseRecOn with
  | nil =>
    refine ⟨?_, ?_, rfl⟩
    · intro v
      simp only [post_votes_run, List.foldl_nil, latest_vote, DB.votes_of]
      rw [List.filter_eq_nil_iff]
      intro r hr
      simp [hvotes r hr]
    · intro r hr hid
      simpa [voters_with] using hposts r hr hid
  | append_singleton h c ih =>
    have hh : ∀ c ∈ h, c.p.ID = pid ∧ c.p.Forum = fid ∧ (c.vote = "up" ∨ c.vote = "down") :=
      fun c' hc' => hcalls c' (by simp [hc'])
    obtain ⟨hid, hf, hv⟩ := hcalls c (by simp)
    have := post_vote_set_inv db (post_votes_run db h) pid fid h c (ih hh) hid hf hv
    simpa [post_votes_run, List.foldl_append] using this

/-! ## C1: the post vote ledger -/

/-- C1: after any sequence of `forums_post_vote_set` calls on a post that
starts with tallies 0/0 and no vote rows, each call with choice "up" or "down",
the stored up tally of the post is the number of voters whose most recent
choice is "up", the down tally the number of voters whose most recent choice
is "down", the post rows are the same by identifier, and the votes table holds
for each voter exactly one row for the post, carrying the latest choice (and no
row for somebody who never voted). -/
theorem post_vote_tally_exact (db : DB) (pid fid : String) (calls : List PostVoteCall)
    (hvotes : ∀ r ∈ db.votes, r.Post ≠ pid)
    (hposts : ∀ r ∈ db.posts, r.ID = pid → r.Up = 0 ∧ r.Down = 0)
    (hcalls : ∀ c ∈ calls, c.p.ID = pid ∧ c.p.Forum = fid ∧ (c.vote = "up" ∨ c.vote = "down")) :
    (∀ r ∈ (post_votes_run db calls).posts, r.ID = pid →
      r.Up = ((voters_with calls "up").card : Int) ∧
      r.Down = ((voters_with calls "down").card : Int)) ∧
    (post_votes_run db calls).posts.map (fun r => r.ID) = db.posts.map (fun r => r.ID) ∧
    (∀ v, (post_votes_run db calls).votes_of pid v =
      match latest_vote calls v with
      | none => []
      | some x => [post_vote_row fid pid v x]) := by
  obtain ⟨hA, hB, hC⟩ := post_votes_run_inv db pid fid calls hvotes hposts hcalls
  exact ⟨hB, hC, hA⟩

/-- C1 at the scenario of the specification: V votes up then down on P. The
hypotheses hold there, and the final store has up 0, down 1 and one vote row
holding "down". -/
theorem post_vote_tally_exact_witness :
    ((∀ r ∈ (post_votes_run example_db example_calls).posts, r.ID = "P" →
        r.Up = ((voters_with example_calls "up").card : Int) ∧
        r.Down = ((voters_with example_calls "down").card : Int)) ∧
      (post_votes_run example_db example_calls).posts.map (fun r => r.ID)
        = example_db.posts.map (fun r => r.ID) ∧
      (∀ v, (post_votes_run example_db example_calls).votes_of "P" v =
        match latest_vote example_calls v with
        | none => []
        | some x => [post_vote_row "F" "P" v x])) ∧
    (post_votes_run example_db example_calls).posts
      = [{ example_post with Up := 0, Down := 1, Updated := 6 }] ∧
    (post_votes_run example_db example_calls).votes = [post_vote_row "F" "P" "V" "down"] :=
  ⟨post_vote_tally_exact example_db "P" "F" example_calls (by decide) (by decide) (by decide),
    by decide, by decide⟩

/-! ## C2: the comment vote ledger -/

/-- C2: voter "V" votes "up" twice on comment "C", which starts at 0/0 with
no vote rows. The row stored by the first call has the voter in column
`comment` and the comment in column `voter`, the second call does not find it,
and the stored up tally is 2. -/
theorem comment_vote_set_twice_counts_twice :
    (forums_comment_vote_set
        (forums_comment_vote_set { example_db with comments := [example_comment] }
          example_comment "V" "up" 5).1
        (forums_comment_vote_set { example_db with comments := [example_comment] }
          example_comment "V" "up" 5).2 "V" "up" 6).1.comments
      = [{ example_comment with Up := 2 }] ∧
    (forums_comment_vote_set { example_db with comments := [example_comment] }
        example_comment "V" "up" 5).1.votes
      = [{ Forum := "F", Post := "P", Comment := "V", Voter := "C", Vote := "up" }] ∧
    ((forums_comment_vote_set { example_db with comments := [example_comment] }
        example_comment "V" "up" 5).1.votes.find? fun r => r.Comment == "C" && r.Voter == "V")
      = none := by
  decide

/-! ## C3: replayed post/create events -/

/-- C3: a post/create event for post "P" arrives at a store that already
holds "P" with one comment counted and tallies 2/1. The duplicate test of
`forums_post_create_event` reads table `comments`, finds no comment "P", and
the post row is rewritten: comment count and tallies are reset and the updated
time goes back to the creation time. -/
theorem post_create_event_duplicate_rewrites :
    (example_db_commented.posts.any fun r => r.ID == "P") = true ∧
    (forums_post_create_event example_env
        example_world_commented example_post_create 12).db.posts
      = [{ example_post with Comments := 0, Up := 0, Down := 0, Updated := 1 }] ∧
    (forums_post_create_event example_env
        example_world_commented example_post_create 12)
      ≠ example_world_commented := by
  decide

/-! ## C4: replayed comment/create events -/

/-- A comment/create event whose identifier is stored is dropped. -/
theorem comment_create_event_dropped (env : Env) (w : World) (e : Event) (c : ForumComment)
    (hc : e.segment_comment = some c)
    (hdup : (w.db.comments.any fun r => r.ID == c.ID) = true) :
    forums_comment_create_event env w e = w := by
  unfold forums_comment_create_event
  cases forum_by_id env (some e.user) w.db e.from_ with
  | none => rfl
  | some f =>
    simp [hc, hdup]

/-- Either `forums_comment_create_event` drops the event, or the identifier it
carries is stored afterwards. -/
theorem comment_create_event_stores (env : Env) (w : World) (e : Event) :
    forums_comment_create_event env w e = w ∨
      ∃ c, e.segment_comment = some c ∧
        ((forums_comment_create_event env w e).db.comments.any fun r => r.ID == c.ID) = true := by
  unfold forums_comment_create_event
  cases forum_by_id env (some e.user) w.db e.from_ with
  | none => exact Or.inl rfl
  | some f =>
    cases hc : e.segment_comment with
    | none => exact Or.inl rfl
    | some c =>
      simp only []
      repeat' split
      all_goals first
        | exact Or.inl rfl
        | exact Or.inr ⟨c, rfl, by simp [DB.replace_comment, DB.update_posts,
            DB.forums_set_updated]⟩

/-- C4: a comment/create event whose comment identifier is already in table
`comments` leaves the whole world unchanged (no row rewritten, no comment count
incremented, no timestamp bumped, nothing sent), and applying one event twice
gives the same world as applying it once. -/
theorem comment_create_event_idempotent (env : Env) (w : World) (e : Event) :
    (∀ c, e.segment_comment = some c →
      (w.db.comments.any fun r => r.ID == c.ID) = true →
      forums_comment_create_event env w e = w) ∧
    forums_comment_create_event env (forums_comment_create_event env w e) e
      = forums_comment_create_event env w e := by
  refine ⟨fun c hc hdup => comment_create_event_dropped env w e c hc hdup, ?_⟩
  rcases comment_create_event_stores env w e with h | ⟨c, hc, hdup⟩
  · rw [h, h]
  · exact comment_create_event_dropped env _ e c hc hdup

/-- C4 at a concrete replay: the event of comment "C" reaches a store that
holds "C"; nothing changes. Delivered to a store without "C" it is applied
once: the second delivery changes nothing. -/
theorem comment_create_event_idempotent_witness :
    forums_comment_create_event example_env
        example_world_commented example_comment_create
      = example_world_commented ∧
    forums_comment_create_event example_env
        example_world example_comment_create
      ≠ example_world ∧
    forums_comment_create_event example_env
        (forums_comment_create_event example_env
          example_world example_comment_create)
        example_comment_create
      = forums_comment_create_event example_env
          example_world example_comment_create :=
  ⟨(comment_create_event_idempotent example_env
      example_world_commented example_comment_create).1
      (wire_comment example_comment) (by decide) (by decide),
    by decide,
    (comment_create_event_idempotent example_env
      example_world example_comment_create).2⟩

/-! ## C5: referential checks on comments -/

/-- C5 as stated fails on the path from the owner: `forums_comment_create_event`
stores comment "D" although its post "Q" and its parent "X" are not stored. -/
theorem comment_create_event_stores_orphan :
    (example_db.posts.any fun r => r.ID == "Q") = false ∧
    (example_db.comments.any fun r => r.ID == "X") = false ∧
    (forums_comment_create_event example_env
        example_world example_orphan_create).db.comments
      = [{ ID := "D", Forum := "F", Post := "Q", Parent := "X", Member := "A", Name := "Alice",
           Body := "hi", Up := 0, Down := 0, Created := 3 }] := by
  decide

/-- C5, amended: on the two paths that validate a comment, the local
`forums_comment_create` and the inbound `forums_comment_submit_event`, a
comment whose post is not stored in the forum, or whose non-empty parent is not
a stored comment under that post, leaves the world unchanged: no row is stored,
no counter or timestamp changes, nothing is sent. -/
theorem comment_referential_checks (env : Env) (w : World) :
    (∀ (a : Action) (now : Int) (uid : String),
      (∀ f, forum_by_id env a.user w.db (a.input "forum") = some f →
        (¬ ∃ r ∈ w.db.posts, r.ID = a.input "post" ∧ r.Forum = f.ID) ∨
        (a.input "parent" ≠ "" ∧
          ¬ ∃ r ∈ w.db.comments, r.ID = a.input "parent" ∧ r.Post = a.input "post")) →
      (forums_comment_create env w a now uid).1 = w) ∧
    (∀ (e : Event) (now : Int),
      (∀ f c, forum_by_id env (some e.user) w.db e.to_ = some f → e.segment_comment = some c →
        (¬ ∃ r ∈ w.db.posts, r.ID = c.Post ∧ r.Forum = f.ID) ∨
        (c.Parent ≠ "" ∧ ¬ ∃ r ∈ w.db.comments, r.ID = c.Parent ∧ r.Post = c.Post)) →
      forums_comment_submit_event env w e now = w) := by
  constructor
  · intro a now uid h
    unfold forums_comment_create
    cases hu : a.user with
    | none => rfl
    | some u =>
      simp only []
      cases hf : forum_by_id env (some u) w.db (a.input "forum") with
      | none => rfl
      | some f =>
        simp only []
        rw [hu] at h
        rcases h f hf with hp | ⟨hne, hc⟩
        · have : (w.db.posts.any fun r => r.ID == a.input "post" && r.Forum == f.ID) = false := by
            rw [Bool.eq_false_iff]
            intro hany
            apply hp
            obtain ⟨r, hr, hrp⟩ := List.any_eq_true.mp hany
            exact ⟨r, hr, by simpa using hrp⟩
          simp [this]
        · have : (w.db.comments.any fun r => r.ID == a.input "parent" && r.Post == a.input "post")
              = false := by
            rw [Bool.eq_false_iff]
            intro hany
            apply hc
            obtain ⟨r, hr, hrp⟩ := List.any_eq_true.mp hany
            exact ⟨r, hr, by simpa using hrp⟩
          split
          · rfl
          · simp [this, hne]
  · intro e now h
    unfold forums_comment_submit_event
    cases hf : forum_by_id env (some e.user) w.db e.to_ with
    | none => rfl
    | some f =>
      cases hc : e.segment_comment with
      | none => rfl
      | some c =>
        simp only []
        rcases h f c hf hc with hp | ⟨hne, hpar⟩
        · have : (w.db.posts.any fun r => r.Forum == f.ID && r.ID == c.Post) = false := by
            rw [Bool.eq_false_iff]
            intro hany
            apply hp
            obtain ⟨r, hr, hrp⟩ := List.any_eq_true.mp hany
            simp only [Bool.and_eq_true, beq_iff_eq] at hrp
            exact ⟨r, hr, hrp.2, hrp.1⟩
          simp [this]
        · have : (w.db.comments.any fun r =>
              r.Forum == f.ID && r.Post == c.Post && r.ID == c.Parent) = false := by
            rw [Bool.eq_false_iff]
            intro hany
            apply hpar
            obtain ⟨r, hr, hrp⟩ := List.any_eq_true.mp hany
            simp only [Bool.and_eq_true, beq_iff_eq] at hrp
            exact ⟨r, hr, hrp.2, hrp.1.2⟩
          repeat' split
          all_goals first
            | rfl
            | simp_all

/-- C5, amended, at concrete inputs: a local comment under the unknown parent
"X" and a submitted comment on the unknown post "Q" change nothing. -/
theorem comment_referential_checks_witness :
    (forums_comment_create example_env example_world
        example_orphan_action 9 "D").1
      = example_world ∧
    forums_comment_submit_event example_owner_env
        example_world example_orphan_submit 9
      = example_world :=
  ⟨(comment_referential_checks example_env example_world).1
      example_orphan_action 9 "D" (by
        intro f hf
        have h1 : forum_by_id example_env example_orphan_action.user
            example_world.db (example_orphan_action.input "forum")
              = some example_forum := by decide
        rw [h1] at hf
        cases hf
        decide),
    (comment_referential_checks example_owner_env
      example_world).2 example_orphan_submit 9 (by
        intro f c hf hc
        have h1 : forum_by_id example_owner_env (some example_orphan_submit.user)
            example_world.db example_orphan_submit.to_
              = some { example_forum with Entity := some { ID := "F", Fingerprint := "F" } } := by
          decide
        rw [h1] at hf
        cases hf
        cases hc
        decide)⟩

/-! ## C6: the role table -/

/-- The map `forum_roles` has exactly the six role names as keys, each with
its position in the hierarchy as rank. -/
theorem forum_roles_lookup (s : String) :
    forum_roles.lookup s = if s ∈ role_names then some (role_names.indexOf s) else none := by
  by_cases h0 : s = "disabled"
  · subst h0; decide
  by_cases h1 : s = "viewer"
  · subst h1; decide
  by_cases h2 : s = "voter"
  · subst h2; decide
  by_cases h3 : s = "commenter"
  · subst h3; decide
  by_cases h4 : s = "poster"
  · subst h4; decide
  by_cases h5 : s = "administrator"
  · subst h5; decide
  have hmem : s ∉ role_names := by
    simp [role_names, h0, h1, h2, h3, h4, h5]
  rw [if_neg hmem]
  have e0 : (s == "disabled") = false := beq_eq_false_iff_ne.mpr h0
  have e1 : (s == "viewer") = false := beq_eq_false_iff_ne.mpr h1
  have e2 : (s == "voter") = false := beq_eq_false_iff_ne.mpr h2
  have e3 : (s == "commenter") = false := beq_eq_false_iff_ne.mpr h3
  have e4 : (s == "poster") = false := beq_eq_false_iff_ne.mpr h4
  have e5 : (s == "administrator") = false := beq_eq_false_iff_ne.mpr h5
  simp only [forum_roles, List.lookup, e0, e1, e2, e3, e4, e5]

/-- C6: `forum_role(m, need)` is true exactly when the held role (the role of
`m`, or "viewer" when `m` is nil) and `need` are both among the six recognised
names disabled < viewer < voter < commenter < poster < administrator and the
rank of the held role is at least the rank of `need`; an unrecognised held or
needed name gives false. -/
theorem forum_role_iff (m : Option ForumMember) (need : String) :
    (forum_role m need = true ↔
      held_role m ∈ role_names ∧ need ∈ role_names ∧
        role_names.indexOf need ≤ role_names.indexOf (held_role m)) ∧
    role_names.map (fun r => role_names.indexOf r) = [0, 1, 2, 3, 4, 5] := by
  refine ⟨?_, by decide⟩
  have hheld : (match m with
      | some m => m.Role
      | none => "viewer") = held_role m := by
    cases m <;> rfl
  unfold forum_role
  simp only [hheld, forum_roles_lookup]
  by_cases hh : held_role m ∈ role_names
  · by_cases hn : need ∈ role_names
    · simp only [if_pos hh, if_pos hn, hh, hn, true_and]
      by_cases hlt : role_names.indexOf (held_role m) < role_names.indexOf need
      · simp [hlt]
      · simp [hlt, Nat.le_of_not_lt hlt]
    · simp [hh, hn]
  · simp [hh]

/-! ## C7: unauthorised submissions -/

/-- An unauthorised sender is not returned by `forum_member`. -/
theorem forum_member_unauthorised (db : DB) (f : Forum) (member role : String)
    (h : unauthorised db f.ID member role) : forum_member db f member role = none := by
  unfold forum_member
  cases hfind : db.members.find? (fun m => m.Forum == f.ID && m.ID == member) with
  | none => rfl
  | some m =>
    have hp := List.find?_some hfind
    simp only [Bool.and_eq_true, beq_iff_eq] at hp
    have := h m (List.mem_of_find?_eq_some hfind) hp.1 hp.2
    simp [this]

/-- C7: an inbound post/submit, comment/submit, post/vote or comment/vote
whose sender has no membership row in the forum concerned with a role that
satisfies the minimum of the action (poster, commenter, voter, voter) leaves
the world unchanged: no row is created, no tally or timestamp changes and no
message is sent. -/
theorem unauthorised_submission_dropped (env : Env) (w : World) (e : Event) (now now2 : Int) :
    ((∀ f, forum_by_id env (some e.user) w.db e.to_ = some f →
        unauthorised w.db f.ID e.from_ "poster") →
      forums_post_submit_event env w e now now2 = w) ∧
    ((∀ f, forum_by_id env (some e.user) w.db e.to_ = some f →
        unauthorised w.db f.ID e.from_ "commenter") →
      forums_comment_submit_event env w e now = w) ∧
    ((∀ v p f, e.segment_vote = some v →
        (w.db.posts.find? fun r => r.ID == v.Post) = some p →
        forum_by_id env (some e.user) w.db p.Forum = some f →
        unauthorised w.db f.ID e.from_ "voter") →
      forums_post_vote_event env w e now = w) ∧
    ((∀ v c f, e.segment_vote = some v →
        (w.db.comments.find? fun r => r.ID == v.Comment) = some c →
        forum_by_id env (some e.user) w.db c.Forum = some f →
        unauthorised w.db f.ID e.from_ "voter") →
      forums_comment_vote_event env w e now = w) := by
  refine ⟨?_, ?_, ?_, ?_⟩
  · intro h
    unfold forums_post_submit_event
    cases hf : forum_by_id env (some e.user) w.db e.to_ with
    | none => rfl
    | some f =>
      cases e.segment_post with
      | none => rfl
      | some p =>
        simp only [forum_member_unauthorised w.db f e.from_ "poster" (h f hf)]
        repeat' split
        all_goals rfl
  · intro h
    unfold forums_comment_submit_event
    cases hf : forum_by_id env (some e.user) w.db e.to_ with
    | none => rfl
    | some f =>
      cases e.segment_comment with
      | none => rfl
      | some c =>
        simp only [forum_member_unauthorised w.db f e.from_ "commenter" (h f hf)]
        repeat' split
        all_goals rfl
  · intro h
    unfold forums_post_vote_event
    cases hv : e.segment_vote with
    | none => rfl
    | some v =>
      cases hp : w.db.posts.find? (fun r => r.ID == v.Post) with
      | none => simp only [hp]
      | some p =>
        cases hf : forum_by_id env (some e.user) w.db p.Forum with
        | none => simp only [hp, hf]
        | some f =>
          simp only [hp, hf, forum_member_unauthorised w.db f e.from_ "voter" (h v p f hv hp hf)]
  · intro h
    unfold forums_comment_vote_event
    cases hv : e.segment_vote with
    | none => rfl
    | some v =>
      cases hc : w.db.comments.find? (fun r => r.ID == v.Comment) with
      | none => simp only [hc]
      | some c =>
        cases hf : forum_by_id env (some e.user) w.db c.Forum with
        | none => simp only [hc, hf]
        | some f =>
          simp only [hc, hf, forum_member_unauthorised w.db f e.from_ "voter" (h v c f hv hc hf)]

/-- C7 at the scenario of the specification and its siblings: viewer "M"
submits a comment, submits a post and votes on a comment, and the stranger "X"
votes on a post; each event leaves the world of the owner as it was. -/
theorem unauthorised_submission_dropped_witness :
    forums_post_submit_event example_owner_env example_owner_world example_viewer_post 7 8
      = example_owner_world ∧
    forums_comment_submit_event example_owner_env example_owner_world example_viewer_comment 7
      = example_owner_world ∧
    forums_post_vote_event example_owner_env example_owner_world example_stranger_vote 7
      = example_owner_world ∧
    forums_comment_vote_event example_owner_env example_owner_world example_viewer_comment_vote 7
      = example_owner_world :=
  have hforum : forum_by_id example_owner_env (some example_owner) example_owner_world.db "F"
      = some { example_forum with Entity := some { ID := "F", Fingerprint := "F" } } := by
    decide
  ⟨(unauthorised_submission_dropped example_owner_env example_owner_world
      example_viewer_post 7 8).1 (by
        intro f hf
        replace hf : forum_by_id example_owner_env (some example_owner) example_owner_world.db "F"
            = some f := hf
        rw [hforum] at hf
        cases hf
        decide),
    (unauthorised_submission_dropped example_owner_env example_owner_world
      example_viewer_comment 7 8).2.1 (by
        intro f hf
        replace hf : forum_by_id example_owner_env (some example_owner) example_owner_world.db "F"
            = some f := hf
        rw [hforum] at hf
        cases hf
        decide),
    (unauthorised_submission_dropped example_owner_env example_owner_world
      example_stranger_vote 7 8).2.2.1 (by
        intro v p f hv hp hf
        cases hv
        have hp' : (example_owner_world.db.posts.find? fun r => r.ID == "P")
            = some { example_post with Comments := 1, Up := 2, Down := 1, Updated := 9 } := by
          decide
        rw [hp'] at hp
        cases hp
        replace hf : forum_by_id example_owner_env (some example_owner) example_owner_world.db "F"
            = some f := hf
        rw [hforum] at hf
        cases hf
        decide),
    (unauthorised_submission_dropped example_owner_env example_owner_world
      example_viewer_comment_vote 7 8).2.2.2 (by
        intro v c f hv hc hf
        cases hv
        have hc' : (example_owner_world.db.comments.find? fun r => r.ID == "C")
            = some example_comment := by
          decide
        rw [hc'] at hc
        cases hc
        replace hf : forum_by_id example_owner_env (some example_owner) example_owner_world.db "F"
            = some f := hf
        rw [hforum] at hf
        cases hf
        decide)⟩

/-! ## C8: recipients of a post fan-out -/

/-- In a list without duplicate keys, the rows that satisfy a test which
pins the key down number one or none. -/
theorem filter_length_of_nodup_key {α κ : Type} (key : α → κ) (P : α → Bool) (k : κ) :
    ∀ (l : List α), (l.map key).Nodup → (∀ a ∈ l, P a = true → key a = k) →
      (l.filter P).length = if ∃ a ∈ l, P a = true then 1 else 0 := by
  intro l
  induction l with
  | nil => intro _ _; simp
  | cons a l ih =>
    intro hn hP
    rw [List.map_cons, List.nodup_cons] at hn
    obtain ⟨hnot, hn⟩ := hn
    have hP' : ∀ b ∈ l, P b = true → key b = k := fun b hb => hP b (List.mem_cons_of_mem _ hb)
    by_cases ha : P a = true
    · have hnone : ∀ b ∈ l, ¬ P b = true := by
        intro b hb hb'
        apply hnot
        rw [hP a (List.mem_cons_self _ _) ha, ← hP' b hb hb']
        exact List.mem_map_of_mem key hb
      have hfil : l.filter P = [] := List.filter_eq_nil_iff.mpr hnone
      rw [List.filter_cons_of_pos ha, hfil, if_pos ⟨a, List.mem_cons_self _ _, ha⟩]
      rfl
    · rw [List.filter_cons_of_neg ha, ih hn hP']
      by_cases hex : ∃ b ∈ l, P b = true
      · obtain ⟨b, hb, hb'⟩ := hex
        rw [if_pos ⟨b, hb, hb'⟩, if_pos ⟨b, List.mem_cons_of_mem _ hb, hb'⟩]
      · rw [if_neg hex, if_neg]
        rintro ⟨b, hb, hb'⟩
        rcases List.mem_cons.mp hb with rfl | hb
        · exact ha hb'
        · exact hex ⟨b, hb, hb'⟩

/-- The number of messages a fan-out loop sends to one identity: one when it
is an active member that the loop does not skip, none otherwise. -/
theorem fanout_count (db : DB) (hpk : members_key_unique db) (fid : String)
    (keep : String → Bool) (mk : ForumMember → Message) (hmk : ∀ m, (mk m).to_ = m.ID)
    (x : String) :
    ((((db.active_members fid).filter fun m => keep m.ID).map mk).filter
        fun g => g.to_ == x).length
      = if active_member db fid x ∧ keep x = true then 1 else 0 := by
  rw [List.filter_map, List.length_map, DB.active_members, List.filter_filter,
    List.filter_filter]
  rw [filter_length_of_nodup_key (fun m : ForumMember => (m.Forum, m.ID)) _ (fid, x)
    db.members hpk]
  · apply if_congr _ rfl rfl
    simp only [Function.comp, hmk, Bool.and_eq_true, beq_iff_eq, bne_iff_ne, ne_eq,
      active_member]
    constructor
    · rintro ⟨m, hm, ⟨hx, hk⟩, hf, hr⟩
      exact ⟨⟨m, hm, hf, hx, hr⟩, by rw [← hx]; exact hk⟩
    · rintro ⟨⟨m, hm, hf, hx, hr⟩, hk⟩
      exact ⟨m, hm, ⟨hx, by rw [hx]; exact hk⟩, hf, hr⟩
  · intro m _ hm
    simp only [Function.comp, hmk, Bool.and_eq_true, beq_iff_eq] at hm
    rw [hm.1.1, hm.2.1]

/-- The messages `forums_post_create` sends when the local node owns the
forum and the request is accepted. -/
theorem post_create_owner_outbox (env : Env) (w : World) (a : Action) (now : Int) (uid : String)
    (u : User) (f : Forum) (ent : Entity) (hu : a.user = some u)
    (hf : forum_by_id env (some u) w.db (a.input "forum") = some f)
    (hent : f.Entity = some ent)
    (htitle : env.valid (a.input "title") "line" = true)
    (hbody : env.valid (a.input "body") "text" = true)
    (hdup : (w.db.posts.any fun r => r.ID == uid) = false) :
    (forums_post_create env w a now uid).1.outbox = w.outbox ++
      (((w.db.active_members f.ID).filter fun m => m.ID != u.Identity.ID).map fun m =>
        message_post f.ID m.ID "post/create"
          { ID := uid, Forum := "", Member := u.Identity.ID, Name := u.Identity.Name,
            Title := a.input "title", Body := a.input "body", Comments := 0, Up := 0, Down := 0,
            Created := now, Updated := 0,
            Attachments :=
              env.upload_attachments a "attachments" f.ID (attachments_path f.ID uid) true }) := by
  unfold forums_post_create
  simp only [hu, hf, htitle, hbody, hdup, hent]
  rfl

/-- The messages `forums_post_submit_event` sends when it accepts a post. -/
theorem post_submit_outbox (env : Env) (w : World) (e : Event) (now1 now2 : Int)
    (f : Forum) (p : ForumPost) (m : ForumMember)
    (hf : forum_by_id env (some e.user) w.db e.to_ = some f)
    (hp : e.segment_post = some p)
    (hid : env.valid p.ID "id" = true)
    (hdup : (w.db.posts.any fun r => r.ID == p.ID) = false)
    (hm : forum_member w.db f e.from_ "poster" = some m)
    (htitle : env.valid p.Title "line" = true)
    (hbody : env.valid p.Body "text" = true) :
    (forums_post_submit_event env w e now1 now2).outbox = w.outbox ++
      (((w.db.active_members f.ID).filter fun m =>
          m.ID != e.from_ && m.ID != e.user.Identity.ID).map fun r =>
        message_post f.ID r.ID "post/create"
          { p with Created := now1, Member := e.from_, Name := m.Name, Attachments := none }) := by
  unfold forums_post_submit_event
  simp only [hf, hp, hid, hdup, hm, htitle, hbody]
  rfl

/-- C8: when the owner fans a post out, from `forums_post_create` on the node
that owns the forum or from `forums_post_submit_event` on acceptance, the
messages it sends are post/create messages from the forum, and each identity
receives exactly one of them if it is a member of the forum whose role is not
"disabled" and it is not the originator (the local actor, respectively the
submitter or the identity of the owner), and none otherwise; a member whose
role is "disabled" receives nothing. -/
theorem post_fanout_recipients (env : Env) (w : World) (hpk : members_key_unique w.db) :
    (∀ (a : Action) (now : Int) (uid : String) (u : User) (f : Forum) (ent : Entity),
      a.user = some u →
      forum_by_id env (some u) w.db (a.input "forum") = some f →
      f.Entity = some ent →
      env.valid (a.input "title") "line" = true →
      env.valid (a.input "body") "text" = true →
      (w.db.posts.any fun r => r.ID == uid) = false →
      ∃ msgs, (forums_post_create env w a now uid).1.outbox = w.outbox ++ msgs ∧
        (∀ g ∈ msgs, g.event = "post/create" ∧ g.from_ = f.ID ∧ g.service = "forums") ∧
        ∀ x, (msgs.filter fun g => g.to_ == x).length =
          if active_member w.db f.ID x ∧ x ≠ u.Identity.ID then 1 else 0) ∧
    (∀ (e : Event) (now1 now2 : Int) (f : Forum) (p : ForumPost) (m : ForumMember),
      forum_by_id env (some e.user) w.db e.to_ = some f →
      e.segment_post = some p →
      env.valid p.ID "id" = true →
      (w.db.posts.any fun r => r.ID == p.ID) = false →
      forum_member w.db f e.from_ "poster" = some m →
      env.valid p.Title "line" = true →
      env.valid p.Body "text" = true →
      ∃ msgs, (forums_post_submit_event env w e now1 now2).outbox = w.outbox ++ msgs ∧
        (∀ g ∈ msgs, g.event = "post/create" ∧ g.from_ = f.ID ∧ g.service = "forums") ∧
        ∀ x, (msgs.filter fun g => g.to_ == x).length =
          if active_member w.db f.ID x ∧ x ≠ e.from_ ∧ x ≠ e.user.Identity.ID then 1 else 0) := by
  constructor
  · intro a now uid u f ent hu hf hent htitle hbody hdup
    refine ⟨_, post_create_owner_outbox env w a now uid u f ent hu hf hent htitle hbody hdup,
      ?_, ?_⟩
    · intro g hg
      obtain ⟨m, _, rfl⟩ := List.mem_map.mp hg
      exact ⟨rfl, rfl, rfl⟩
    · intro x
      rw [fanout_count w.db hpk f.ID (fun id => id != u.Identity.ID) _ (fun _ => rfl) x]
      apply if_congr _ rfl rfl
      simp
  · intro e now1 now2 f p m hf hp hid hdup hm htitle hbody
    refine ⟨_, post_submit_outbox env w e now1 now2 f p m hf hp hid hdup hm htitle hbody,
      ?_, ?_⟩
    · intro g hg
      obtain ⟨m, _, rfl⟩ := List.mem_map.mp hg
      exact ⟨rfl, rfl, rfl⟩
    · intro x
      rw [fanout_count w.db hpk f.ID (fun id => id != e.from_ && id != e.user.Identity.ID) _
        (fun _ => rfl) x]
      apply if_congr _ rfl rfl
      simp

/-- C8 at the scenario of the specification: the owner "O" creates post "P"
with members "M1" (poster), "M2" (disabled) and "M3" (commenter), and "M1"
submits a post; in the first case "M1" and "M3" receive one post/create message
each, in the second only "M3" does, and "M2" receives nothing. -/
theorem post_fanout_recipients_witness :
    (∃ msgs, (forums_post_create example_owner_env example_fanout_world example_post_action
          7 "P").1.outbox = example_fanout_world.outbox ++ msgs ∧
        (∀ g ∈ msgs, g.event = "post/create" ∧ g.from_ = "F" ∧ g.service = "forums") ∧
        ∀ x, (msgs.filter fun g => g.to_ == x).length =
          if active_member example_fanout_world.db "F" x ∧ x ≠ "O" then 1 else 0) ∧
    (∃ msgs, (forums_post_submit_event example_owner_env example_fanout_world
          example_post_submit 7 8).outbox = example_fanout_world.outbox ++ msgs ∧
        (∀ g ∈ msgs, g.event = "post/create" ∧ g.from_ = "F" ∧ g.service = "forums") ∧
        ∀ x, (msgs.filter fun g => g.to_ == x).length =
          if active_member example_fanout_world.db "F" x ∧ x ≠ "M1" ∧ x ≠ "O" then 1 else 0) ∧
    (forums_post_create example_owner_env example_fanout_world example_post_action
        7 "P").1.outbox.map (fun g => (g.to_, g.event))
      = [("M1", "post/create"), ("M3", "post/create")] ∧
    (forums_post_submit_event example_owner_env example_fanout_world
        example_post_submit 7 8).outbox.map (fun g => (g.to_, g.event))
      = [("M3", "post/create")] :=
  ⟨(post_fanout_recipients example_owner_env example_fanout_world (by decide)).1
      example_post_action 7 "P" example_owner
      { example_forum with Entity := some { ID := "F", Fingerprint := "F" } }
      { ID := "F", Fingerprint := "F" } rfl (by decide) rfl rfl rfl (by decide),
    (post_fanout_recipients example_owner_env example_fanout_world (by decide)).2
      example_post_submit 7 8
      { example_forum with Entity := some { ID := "F", Fingerprint := "F" } }
      { ID := "P", Forum := "", Member := "", Name := "", Title := "T", Body := "B",
        Comments := 0, Up := 0, Down := 0, Created := 0, Updated := 0, Attachments := none }
      { Forum := "F", ID := "M1", Name := "One", Role := "poster" }
      (by decide) rfl rfl (by decide) (by decide) rfl rfl,
    by decide, by decide⟩

/-! ## C9: local mutations on a member node -/

/-- C9 as stated fails: on a node that does not own forum "F" (the forum has
no local entity), `forums_post_create` inserts the new post "Q" into the local
table `posts` before it sends the submit event to the owner. -/
theorem member_post_create_applies_locally :
    (forum_by_id example_env (some example_user) example_world.db "F").map (fun f => f.Entity)
      = some none ∧
    (forums_post_create example_env example_world example_member_post 7 "Q").1.db.posts
      = example_world.db.posts ++
        [{ ID := "Q", Forum := "F", Member := "M", Name := "Mallory", Title := "T", Body := "B",
           Comments := 0, Up := 0, Down := 0, Created := 7, Updated := 7,
           Attachments := none }] ∧
    (forums_post_create example_env example_world example_member_post 7 "Q").1.db.posts
      ≠ example_world.db.posts ∧
    (forums_post_create example_env example_world example_member_post 7 "Q").1.outbox.map
        (fun g => (g.from_, g.to_, g.event))
      = [("M", "F", "post/submit")] := by
  decide

/-- C9, amended: when the local node does not own the forum (the forum has no
local entity) and the request passes the local checks, a locally authored
mutation sends exactly one message, the submit event from the local identity to
the forum owner, and the mutation is also applied to the local store: the post
row is inserted, the comment row is inserted and the comment count of its post
incremented, the vote is written through `forums_post_vote_set`, respectively
`forums_comment_vote_set`. -/
theorem member_mutation_submits (env : Env) (w : World) :
    (∀ (a : Action) (now : Int) (uid : String) (u : User) (f : Forum),
      a.user = some u →
      forum_by_id env (some u) w.db (a.input "forum") = some f →
      f.Entity = none →
      env.valid (a.input "title") "line" = true →
      env.valid (a.input "body") "text" = true →
      (w.db.posts.any fun r => r.ID == uid) = false →
      (forums_post_create env w a now uid).1.outbox = w.outbox ++
        [message_post u.Identity.ID f.ID "post/submit"
          { ID := uid, Forum := "", Member := "", Name := "", Title := a.input "title",
            Body := a.input "body", Comments := 0, Up := 0, Down := 0, Created := 0,
            Updated := 0,
            Attachments :=
              env.upload_attachments a "attachments" f.ID (attachments_path f.ID uid) false }] ∧
      (forums_post_create env w a now uid).1.db.posts = w.db.posts ++
        [{ ID := uid, Forum := f.ID, Member := u.Identity.ID, Name := u.Identity.Name,
           Title := a.input "title", Body := a.input "body", Comments := 0, Up := 0, Down := 0,
           Created := now, Updated := now, Attachments := none }]) ∧
    (∀ (a : Action) (now : Int) (uid : String) (u : User) (f : Forum),
      a.user = some u →
      forum_by_id env (some u) w.db (a.input "forum") = some f →
      f.Entity = none →
      (w.db.posts.any fun r => r.ID == a.input "post" && r.Forum == f.ID) = true →
      (a.input "parent" = "" ∨
        (w.db.comments.any fun r => r.ID == a.input "parent" && r.Post == a.input "post")
          = true) →
      env.valid (a.input "body") "text" = true →
      (w.db.comments.any fun r => r.ID == uid) = false →
      (forums_comment_create env w a now uid).1.outbox = w.outbox ++
        [message_comment u.Identity.ID f.ID "comment/submit"
          { ID := uid, Forum := "", Post := a.input "post", Parent := a.input "parent",
            Member := "", Name := "", Body := a.input "body", Up := 0, Down := 0,
            Created := 0 }] ∧
      (forums_comment_create env w a now uid).1.db.comments = w.db.comments ++
        [{ ID := uid, Forum := f.ID, Post := a.input "post", Parent := a.input "parent",
           Member := u.Identity.ID, Name := u.Identity.Name, Body := a.input "body",
           Up := 0, Down := 0, Created := now }] ∧
      (forums_comment_create env w a now uid).1.db.posts = w.db.posts.map fun r =>
        if r.ID = a.input "post" then { r with Updated := now, Comments := r.Comments + 1 }
        else r) ∧
    (∀ (a : Action) (now : Int) (u : User) (p : ForumPost) (f : Forum),
      a.user = some u →
      (w.db.posts.find? fun r => r.ID == a.input "post") = some p →
      forum_by_id env (some u) w.db p.Forum = some f →
      f.Entity = none →
      (forums_post_vote env w a now).1.outbox = w.outbox ++
        [message_vote u.Identity.ID f.ID "post/vote"
          { Post := p.ID, Comment := "", Voter := "", Vote := a.input "vote" }] ∧
      (forums_post_vote env w a now).1.db
        = (forums_post_vote_set w.db p u.Identity.ID (a.input "vote") now).1) ∧
    (∀ (a : Action) (now : Int) (u : User) (c : ForumComment) (f : Forum),
      a.user = some u →
      (w.db.comments.find? fun r => r.ID == a.input "comment") = some c →
      forum_by_id env (some u) w.db c.Forum = some f →
      f.Entity = none →
      (forums_comment_vote env w a now).1.outbox = w.outbox ++
        [message_vote u.Identity.ID f.ID "comment/vote"
          { Post := "", Comment := c.ID, Voter := "", Vote := a.input "vote" }] ∧
      (forums_comment_vote env w a now).1.db
        = (forums_comment_vote_set w.db c u.Identity.ID (a.input "vote") now).1) := by
  refine ⟨?_, ?_, ?_, ?_⟩
  · intro a now uid u f hu hf hent htitle hbody hdup
    have hfil : w.db.posts.filter (fun x => x.ID != uid) = w.db.posts := by
      rw [List.filter_eq_self]
      intro r hr
      have := List.any_eq_false.mp hdup r hr
      simpa using this
    unfold forums_post_create
    simp only [hu, hf, htitle, hbody, hdup, hent]
    exact ⟨rfl, by simp [DB.replace_post, DB.forums_set_updated, World.send, hfil]⟩
  · intro a now uid u f hu hf hent hpost hparent hbody hdup
    have hfil : w.db.comments.filter (fun x => x.ID != uid) = w.db.comments := by
      rw [List.filter_eq_self]
      intro r hr
      have := List.any_eq_false.mp hdup r hr
      simpa using this
    have hpar : (a.input "parent" != "" &&
        !(w.db.comments.any fun r => r.ID == a.input "parent" && r.Post == a.input "post"))
          = false := by
      rcases hparent with h | h
      · simp [h]
      · simp [h]
    unfold forums_comment_create
    simp only [hu, hf, hpost, hpar, hbody, hdup, hent]
    exact ⟨rfl,
      by simp [DB.replace_comment, DB.update_posts, DB.forums_set_updated, World.send, hfil],
      by simp [DB.replace_comment, DB.update_posts, DB.forums_set_updated, World.send]⟩
  · intro a now u p f hu hp hf hent
    unfold forums_post_vote
    simp only [hu, hp, hf, hent]
    exact ⟨rfl, rfl⟩
  · intro a now u c f hu hc hf hent
    unfold forums_comment_vote
    simp only [hu, hc, hf, hent]
    exact ⟨rfl, rfl⟩

/-- C9, amended, on the member node "M" of forum "F": each of the four local
actions sends one submit event to "F" and changes the local tables. -/
theorem member_mutation_submits_witness :
    ((forums_post_create example_env example_world_commented example_member_post 7 "Q").1.outbox
        = example_world_commented.outbox ++
          [message_post "M" "F" "post/submit"
            { ID := "Q", Forum := "", Member := "", Name := "", Title := "T", Body := "B",
              Comments := 0, Up := 0, Down := 0, Created := 0, Updated := 0,
              Attachments := none }] ∧
      (forums_post_create example_env example_world_commented example_member_post 7 "Q").1.db.posts
        = example_world_commented.db.posts ++
          [{ ID := "Q", Forum := "F", Member := "M", Name := "Mallory", Title := "T",
             Body := "B", Comments := 0, Up := 0, Down := 0, Created := 7, Updated := 7,
             Attachments := none }]) ∧
    ((forums_comment_create example_env example_world_commented example_member_comment
          7 "D").1.outbox
        = example_world_commented.outbox ++
          [message_comment "M" "F" "comment/submit"
            { ID := "D", Forum := "", Post := "P", Parent := "", Member := "", Name := "",
              Body := "hi", Up := 0, Down := 0, Created := 0 }] ∧
      (forums_comment_create example_env example_world_commented example_member_comment
          7 "D").1.db.comments
        = example_world_commented.db.comments ++
          [{ ID := "D", Forum := "F", Post := "P", Parent := "", Member := "M",
             Name := "Mallory", Body := "hi", Up := 0, Down := 0, Created := 7 }] ∧
      (forums_comment_create example_env example_world_commented example_member_comment
          7 "D").1.db.posts
        = example_world_commented.db.posts.map fun r =>
            if r.ID = "P" then { r with Updated := 7, Comments := r.Comments + 1 } else r) ∧
    ((forums_post_vote example_env example_world_commented example_member_post_vote 7).1.outbox
        = example_world_commented.outbox ++
          [message_vote "M" "F" "post/vote"
            { Post := "P", Comment := "", Voter := "", Vote := "up" }] ∧
      (forums_post_vote example_env example_world_commented example_member_post_vote 7).1.db
        = (forums_post_vote_set example_world_commented.db
            { example_post with Comments := 1, Up := 2, Down := 1, Updated := 9 }
            "M" "up" 7).1) ∧
    ((forums_comment_vote example_env example_world_commented example_member_comment_vote
          7).1.outbox
        = example_world_commented.outbox ++
          [message_vote "M" "F" "comment/vote"
            { Post := "", Comment := "C", Voter := "", Vote := "up" }] ∧
      (forums_comment_vote example_env example_world_commented example_member_comment_vote 7).1.db
        = (forums_comment_vote_set example_world_commented.db example_comment "M" "up" 7).1) :=
  ⟨(member_mutation_submits example_env example_world_commented).1
      example_member_post 7 "Q" example_user example_forum rfl (by decide) rfl rfl rfl
      (by decide),
    (member_mutation_submits example_env example_world_commented).2.1
      example_member_comment 7 "D" example_user example_forum rfl (by decide) rfl (by decide)
      (Or.inl (by decide)) rfl (by decide),
    (member_mutation_submits example_env example_world_commented).2.2.1
      example_member_post_vote 7 example_user
      { example_post with Comments := 1, Up := 2, Down := 1, Updated := 9 } example_forum
      rfl (by decide) (by decide) rfl,
    (member_mutation_submits example_env example_world_commented).2.2.2
      example_member_comment_vote 7 example_user example_comment example_forum
      rfl (by decide) (by decide) rfl⟩

/-! ## C10: catch-up replay -/

/-- The query behind the replay returns the forum posts in descending order of
`updated`, cut after 1000 rows. -/
theorem recent_posts_spec (db : DB) (forum : String) :
    (db.recent_posts forum).length = min 1000 (db.forum_posts forum).length ∧
    (∃ rest, (db.recent_posts forum ++ rest).Perm (db.forum_posts forum) ∧
      ∀ a ∈ db.recent_posts forum, ∀ b ∈ rest, b.Updated ≤ a.Updated) ∧
    ((db.forum_posts forum).length ≤ 1000 →
      (db.recent_posts forum).Perm (db.forum_posts forum)) := by
  have hperm := List.perm_insertionSort ForumPost.newer (db.forum_posts forum)
  have hsorted := List.sorted_insertionSort ForumPost.newer (db.forum_posts forum)
  refine ⟨?_, ⟨((db.forum_posts forum).insertionSort ForumPost.newer).drop 1000, ?_, ?_⟩, ?_⟩
  · simp only [DB.recent_posts, List.length_take]
    rw [show db.posts.filter (fun r => r.Forum == forum) = db.forum_posts forum from rfl,
      hperm.length_eq]
  · simp only [DB.recent_posts]
    rw [show db.posts.filter (fun r => r.Forum == forum) = db.forum_posts forum from rfl,
      List.take_append_drop]
    exact hperm
  · intro a ha b hb
    simp only [DB.recent_posts] at ha
    rw [show db.posts.filter (fun r => r.Forum == forum) = db.forum_posts forum from rfl] at ha
    have hs := hsorted
    unfold List.Sorted at hs
    rw [← List.take_append_drop 1000 ((db.forum_posts forum).insertionSort ForumPost.newer)] at hs
    exact (List.pairwise_append.mp hs).2.2 a ha b hb
  · intro hlen
    simp only [DB.recent_posts]
    rw [show db.posts.filter (fun r => r.Forum == forum) = db.forum_posts forum from rfl,
      List.take_of_length_le (by rw [hperm.length_eq]; exact hlen)]
    exact hperm

/-- C10: `forum_send_recent_posts` changes nothing in the store and appends to
the outbox first one post/create message per post of the replay set, then one
comment/create message per comment stored under each of those posts, and
nothing else; every message goes from the forum to the member. The replay set
has min(1000, n) of the n posts of the forum, no post left out was updated
later than a post in it, and it holds all posts of the forum when n is at most
1000. -/
theorem send_recent_posts_messages (env : Env) (u : User) (w : World) (f : Forum)
    (member : String) :
    (forum_send_recent_posts env u w f member).db = w.db ∧
    (forum_send_recent_posts env u w f member).saved = w.saved ∧
    (forum_send_recent_posts env u w f member).outbox = w.outbox
      ++ replay_posts env u f member (w.db.recent_posts f.ID)
      ++ replay_comments w.db f member (w.db.recent_posts f.ID) ∧
    (∀ g ∈ replay_posts env u f member (w.db.recent_posts f.ID),
      g.event = "post/create" ∧ g.to_ = member ∧ g.from_ = f.ID) ∧
    (∀ g ∈ replay_comments w.db f member (w.db.recent_posts f.ID),
      g.event = "comment/create" ∧ g.to_ = member ∧ g.from_ = f.ID) ∧
    (replay_posts env u f member (w.db.recent_posts f.ID)).length
      = min 1000 (w.db.forum_posts f.ID).length ∧
    (replay_comments w.db f member (w.db.recent_posts f.ID)).length
      = ((w.db.recent_posts f.ID).map fun p => (w.db.comments_of_post p.ID).length).sum ∧
    (∃ rest, (w.db.recent_posts f.ID ++ rest).Perm (w.db.forum_posts f.ID) ∧
      ∀ a ∈ w.db.recent_posts f.ID, ∀ b ∈ rest, b.Updated ≤ a.Updated) ∧
    ((w.db.forum_posts f.ID).length ≤ 1000 →
      (w.db.recent_posts f.ID).Perm (w.db.forum_posts f.ID)) := by
  obtain ⟨hlen, hrest, hall⟩ := recent_posts_spec w.db f.ID
  refine ⟨rfl, rfl, ?_, ?_, ?_, ?_, ?_, hrest, hall⟩
  · simp [forum_send_recent_posts, World.send_all, replay_posts, replay_comments]
  · intro g hg
    obtain ⟨p, _, rfl⟩ := List.mem_map.mp hg
    exact ⟨rfl, rfl, rfl⟩
  · intro g hg
    simp only [replay_comments, List.mem_flatMap, List.mem_map] at hg
    obtain ⟨p, _, c, _, rfl⟩ := hg
    exact ⟨rfl, rfl, rfl⟩
  · rw [replay_posts, List.length_map, hlen]
  · simp only [replay_comments]
    induction w.db.recent_posts f.ID with
    | nil => rfl
    | cons p ps ih => simp [List.flatMap_cons, ih]

/-- C10 at the scenario of the specification: the forum has 3 posts with 5
comments in total, and the new member "N" is sent 3 post/create messages, most
recently updated post first, followed by 5 comment/create messages, all from
"F" to "N". -/
theorem send_recent_posts_messages_witness :
    (example_replay_world.db.recent_posts "F").Perm (example_replay_world.db.forum_posts "F") ∧
    (forum_send_recent_posts example_owner_env example_owner example_replay_world
        { example_forum with Entity := some { ID := "F", Fingerprint := "F" } } "N").outbox.map
        (fun g => (g.from_, g.to_, g.event))
      = [("F", "N", "post/create"), ("F", "N", "post/create"), ("F", "N", "post/create"),
         ("F", "N", "comment/create"), ("F", "N", "comment/create"),
         ("F", "N", "comment/create"), ("F", "N", "comment/create"),
         ("F", "N", "comment/create")] ∧
    (example_replay_world.db.recent_posts "F").map (fun p => p.ID) = ["P2", "P3", "P1"] :=
  ⟨(send_recent_posts_messages example_owner_env example_owner example_replay_world
      { example_forum with Entity := some { ID := "F", Fingerprint := "F" } } "N").2.2.2.2.2.2.2.2
      (by decide),
    by decide, by decide⟩

/-! ## C11: the depth ceiling of the comment tree -/

/-- Beyond depth 1000 `forum_comments` returns nil. -/
theorem forum_comments_beyond (env : Env) (rd : Render) (u : User) (db : DB) (f : Forum)
    (m : Option ForumMember) (p : ForumPost) (parent : Option ForumComment) (depth : Nat)
    (h : 1000 < depth) : forum_comments env rd u db f m p parent depth = none := by
  rw [forum_comments.eq_def, dif_pos h]

/-- Up to depth 1000 `forum_comments` returns the rows of its query, each with
the subtree computed one level deeper. -/
theorem forum_comments_unfold (env : Env) (rd : Render) (u : User) (db : DB) (f : Forum)
    (m : Option ForumMember) (p : ForumPost) (parent : Option ForumComment) (depth : Nat)
    (h : depth ≤ 1000) :
    forum_comments env rd u db f m p parent depth =
      some ((db.comments_under f.ID p.ID
          (match parent with
            | some c => c.ID
            | none => "")).map fun c =>
        CommentNode.mk c (env.fingerprint c.Forum) (rd.web_markdown c.Body)
          (rd.time_local u c.Created)
          (forum_comments env rd u db f m p (some c) (depth + 1))
          (forum_role m "voter") (forum_role m "commenter")) := by
  rw [forum_comments.eq_def, dif_neg (by omega)]

theorem forest_at_map {α : Type} (k : Nat) (g : α → CommentNode) (l : List α) :
    forest_at k (l.map g) = l.flatMap fun a => CommentNode.nodes_at k (g a) := by
  induction l with
  | nil => simp [forest_at]
  | cons a l ih => simp [forest_at, ih]

theorem mem_forest_at (k : Nat) (n : CommentNode) (l : List CommentNode) :
    n ∈ forest_at k l ↔ ∃ t ∈ l, n ∈ CommentNode.nodes_at k t := by
  induction l with
  | nil => simp [forest_at]
  | cons a l ih => simp [forest_at, ih]

/-- No node of the tree computed at `depth` lies `k` levels down when
`depth + k` exceeds 1000. -/
theorem forum_comments_no_node_beyond (env : Env) (rd : Render) (u : User) (db : DB) (f : Forum)
    (m : Option ForumMember) (p : ForumPost) :
    ∀ (k depth : Nat) (parent : Option ForumComment), 1000 < depth + k →
      children_at k (forum_comments env rd u db f m p parent depth) = [] := by
  intro k
  induction k with
  | zero =>
    intro depth parent h
    rw [forum_comments_beyond env rd u db f m p parent depth (by omega)]
    simp [children_at]
  | succ k ih =>
    intro depth parent h
    by_cases hd : 1000 < depth
    · rw [forum_comments_beyond env rd u db f m p parent depth hd]
      simp [children_at]
    · rw [forum_comments_unfold env rd u db f m p parent depth (by omega)]
      simp only [children_at, forest_at_map, CommentNode.nodes_at]
      rw [List.flatMap_eq_nil_iff]
      intro c _
      exact ih (depth + 1) (some c) (by omega)

/-- The tree over the one-comment cycle reaches every depth up to the
ceiling. -/
theorem forum_comments_loop_reaches (env : Env) (rd : Render) (u : User) (f : Forum)
    (m : Option ForumMember) (p : ForumPost) (hf : f.ID = "F") (hp : p.ID = "P") :
    ∀ (k depth : Nat) (parent : Option ForumComment),
      (parent = none ∨ parent = some example_loop_comment) → depth + k ≤ 1000 →
      children_at k (forum_comments env rd u example_loop_db f m p parent depth) ≠ [] := by
  have hq : ∀ parent : Option ForumComment,
      (parent = none ∨ parent = some example_loop_comment) →
      example_loop_db.comments_under f.ID p.ID
        (match parent with
          | some c => c.ID
          | none => "") = [example_loop_comment] := by
    intro parent hpar
    rw [hf, hp]
    rcases hpar with rfl | rfl <;> decide
  intro k
  induction k with
  | zero =>
    intro depth parent hpar h
    rw [forum_comments_unfold env rd u _ f m p parent depth (by omega), hq parent hpar]
    simp [children_at, forest_at, CommentNode.nodes_at]
  | succ k ih =>
    intro depth parent hpar h
    rw [forum_comments_unfold env rd u _ f m p parent depth (by omega), hq parent hpar]
    simp only [children_at, List.map_cons, List.map_nil, forest_at, CommentNode.nodes_at,
      List.append_nil]
    exact ih (depth + 1) (some example_loop_comment) (Or.inr rfl) (by omega)

/-- C11: for every store, `forum_comments` called at depth 0 returns a tree,
that tree has no comment at a depth greater than 1000 (top-level comments are
at depth 0), and every call with a depth greater than 1000 returns nil. This
holds whatever the parent references of the stored comments are, chains of any
length and cycles included. -/
theorem forum_comments_depth_ceiling (env : Env) (rd : Render) (u : User) (db : DB) (f : Forum)
    (m : Option ForumMember) (p : ForumPost) :
    (∃ ns, forum_comments env rd u db f m p none 0 = some ns) ∧
    (∀ k, 1000 < k → children_at k (forum_comments env rd u db f m p none 0) = []) ∧
    (∀ parent depth, 1000 < depth → forum_comments env rd u db f m p parent depth = none) := by
  refine ⟨⟨_, forum_comments_unfold env rd u db f m p none 0 (by omega)⟩, ?_, ?_⟩
  · intro k hk
    exact forum_comments_no_node_beyond env rd u db f m p k 0 none (by omega)
  · intro parent depth h
    exact forum_comments_beyond env rd u db f m p parent depth h

/-- C11 on a store with a cycle: the only comment is its own parent. The tree
has no comment at depth 1001, it does have one at depth 1000, so the expansion
is cut by the ceiling, and the call at depth 1001 returns nil. -/
theorem forum_comments_depth_ceiling_witness :
    children_at 1001
        (forum_comments example_env example_render example_user example_loop_db example_forum
          none example_post none 0) = [] ∧
    children_at 1000
        (forum_comments example_env example_render example_user example_loop_db example_forum
          none example_post none 0) ≠ [] ∧
    forum_comments example_env example_render example_user example_loop_db example_forum
        none example_post (some example_loop_comment) 1001 = none :=
  ⟨(forum_comments_depth_ceiling example_env example_render example_user example_loop_db
      example_forum none example_post).2.1 1001 (by decide),
    forum_comments_loop_reaches example_env example_render example_user example_forum none
      example_post rfl rfl 1000 0 none (Or.inl rfl) (by decide),
    (forum_comments_depth_ceiling example_env example_render example_user example_loop_db
      example_forum none example_post).2.2 (some example_loop_comment) 1001 (by decide)⟩

/-! ## C17: the shape of the comment tree -/

/-- Up to depth 1000 the rows of the nodes returned by `forum_comments` are
the rows of its query. -/
theorem forum_comments_rows (env : Env) (rd : Render) (u : User) (db : DB) (f : Forum)
    (m : Option ForumMember) (p : ForumPost) (parent : Option ForumComment) (depth : Nat)
    (h : depth ≤ 1000) :
    ∃ ns, forum_comments env rd u db f m p parent depth = some ns ∧
      ns.map CommentNode.c = db.comments_under f.ID p.ID
        (match parent with
          | some c => c.ID
          | none => "") := by
  refine ⟨_, forum_comments_unfold env rd u db f m p parent depth h, ?_⟩
  rw [List.map_map]
  conv_rhs => rw [← List.map_id (db.comments_under f.ID p.ID _)]
  rfl

/-- The query of `forum_comments` returns the replies to the parent in
descending order of creation time. -/
theorem comments_under_spec (db : DB) (forum post parent : String) :
    (db.comments_under forum post parent).Perm (db.replies forum post parent) ∧
    (db.comments_under forum post parent).Sorted ForumComment.newer :=
  ⟨List.perm_insertionSort _ _, List.sorted_insertionSort _ _⟩

/-- Every node `k` levels below a call at `depth` carries the role flags of
the requesting member and the subtree computed for it one level further
down. -/
theorem forum_comments_nodes (env : Env) (rd : Render) (u : User) (db : DB) (f : Forum)
    (m : Option ForumMember) (p : ForumPost) :
    ∀ (k depth : Nat) (parent : Option ForumComment),
      ∀ n ∈ children_at k (forum_comments env rd u db f m p parent depth),
        n.Children = forum_comments env rd u db f m p (some n.c) (depth + k + 1) ∧
        n.RoleVoter = forum_role m "voter" ∧ n.RoleCommenter = forum_role m "commenter" := by
  intro k
  induction k with
  | zero =>
    intro depth parent n hn
    by_cases hd : 1000 < depth
    · rw [forum_comments_beyond env rd u db f m p parent depth hd] at hn
      simp [children_at] at hn
    · rw [forum_comments_unfold env rd u db f m p parent depth (by omega)] at hn
      simp only [children_at, mem_forest_at, List.mem_map, CommentNode.nodes_at,
        List.mem_singleton] at hn
      obtain ⟨t, ⟨c, _, rfl⟩, rfl⟩ := hn
      exact ⟨rfl, rfl, rfl⟩
  | succ k ih =>
    intro depth parent n hn
    by_cases hd : 1000 < depth
    · rw [forum_comments_beyond env rd u db f m p parent depth hd] at hn
      simp [children_at] at hn
    · rw [forum_comments_unfold env rd u db f m p parent depth (by omega)] at hn
      simp only [children_at, mem_forest_at, List.mem_map] at hn
      obtain ⟨t, ⟨c, _, rfl⟩, hn⟩ := hn
      simp only [CommentNode.nodes_at] at hn
      have := ih (depth + 1) (some c) n hn
      rw [show depth + (k + 1) + 1 = depth + 1 + k + 1 by omega]
      exact this

/-- C17: `forum_comments(f, m, p, nil, 0)` returns the comments of post `p` in
forum `f` whose parent is the empty string, in descending order of creation
time; every returned node at depth at most 999 has as `Children` the stored
comments of that forum and post whose parent is the identifier of the node,
again in descending order of creation time; and every node of the tree carries
`RoleVoter = forum_role(m, "voter")` and
`RoleCommenter = forum_role(m, "commenter")`. -/
theorem forum_comments_tree (env : Env) (rd : Render) (u : User) (db : DB) (f : Forum)
    (m : Option ForumMember) (p : ForumPost) :
    (∃ ns, forum_comments env rd u db f m p none 0 = some ns ∧
      (ns.map CommentNode.c).Perm (db.replies f.ID p.ID "") ∧
      (ns.map CommentNode.c).Sorted ForumComment.newer) ∧
    (∀ k, k ≤ 999 → ∀ n ∈ children_at k (forum_comments env rd u db f m p none 0),
      ∃ cs, n.Children = some cs ∧
        (cs.map CommentNode.c).Perm (db.replies f.ID p.ID n.c.ID) ∧
        (cs.map CommentNode.c).Sorted ForumComment.newer) ∧
    (∀ k, ∀ n ∈ children_at k (forum_comments env rd u db f m p none 0),
      n.RoleVoter = forum_role m "voter" ∧ n.RoleCommenter = forum_role m "commenter") := by
  refine ⟨?_, ?_, ?_⟩
  · obtain ⟨ns, hns, hrows⟩ := forum_comments_rows env rd u db f m p none 0 (by omega)
    refine ⟨ns, hns, ?_, ?_⟩
    · rw [hrows]
      exact (comments_under_spec db f.ID p.ID "").1
    · rw [hrows]
      exact (comments_under_spec db f.ID p.ID "").2
  · intro k hk n hn
    obtain ⟨hch, _, _⟩ := forum_comments_nodes env rd u db f m p k 0 none n hn
    obtain ⟨cs, hcs, hrows⟩ :=
      forum_comments_rows env rd u db f m p (some n.c) (0 + k + 1) (by omega)
    refine ⟨cs, by rw [hch, hcs], ?_, ?_⟩
    · rw [hrows]
      exact (comments_under_spec db f.ID p.ID n.c.ID).1
    · rw [hrows]
      exact (comments_under_spec db f.ID p.ID n.c.ID).2
  · intro k n hn
    exact (forum_comments_nodes env rd u db f m p k 0 none n hn).2

/-- C17 on a small thread: the top level is "C2" then "C1" (newest first), and
the children of every top-level node are the replies to it. -/
theorem forum_comments_tree_witness :
    (∀ n ∈ children_at 0 (forum_comments example_env example_render example_user
        example_tree_db example_forum none example_post none 0),
      ∃ cs, n.Children = some cs ∧
        (cs.map CommentNode.c).Perm (example_tree_db.replies "F" "P" n.c.ID) ∧
        (cs.map CommentNode.c).Sorted ForumComment.newer) ∧
    (forum_comments example_env example_render example_user example_tree_db example_forum
        none example_post none 0).map (fun ns => ns.map fun n => n.c.ID)
      = some ["C2", "C1"] ∧
    example_tree_db.replies "F" "P" "C1" = [{ example_reply "C3" "P" 6 with Parent := "C1" }] :=
  ⟨(forum_comments_tree example_env example_render example_user example_tree_db example_forum
      none example_post).2.1 0 (by decide),
    by
      rw [forum_comments_unfold _ _ _ _ _ _ _ _ _ (by decide)]
      have hq : example_tree_db.comments_under example_forum.ID example_post.ID ""
          = [example_reply "C2" "P" 5, example_reply "C1" "P" 2] := by decide
      simp only [hq]
      rfl,
    by decide⟩

/-! ## C16: monotonicity of the role table -/

/-- C16: `forum_role` is monotonic in the held role: for recognised roles
`r1` and `r2` with rank of `r2` at least the rank of `r1`, a member holding
`r2` satisfies every requirement that a member holding `r1` satisfies. -/
theorem forum_role_monotone (m1 m2 : ForumMember) (need : String)
    (h1 : m1.Role ∈ role_names) (h2 : m2.Role ∈ role_names)
    (hrank : role_names.indexOf m1.Role ≤ role_names.indexOf m2.Role)
    (hsat : forum_role (some m1) need = true) : forum_role (some m2) need = true := by
  unfold forum_role at hsat ⊢
  simp only [forum_roles_lookup, if_pos h1, if_pos h2] at hsat ⊢
  by_cases hn : need ∈ role_names
  · simp only [if_pos hn] at hsat ⊢
    have hlt : ¬ role_names.indexOf m1.Role < role_names.indexOf need := by
      intro hlt
      simp [hlt] at hsat
    have hlt2 : ¬ role_names.indexOf m2.Role < role_names.indexOf need := by omega
    simp [hlt2]
  · simp [hn] at hsat

/-- C16 at concrete roles: a voter may vote, so a poster may vote. -/
theorem forum_role_monotone_witness :
    forum_role (some { Forum := "F", ID := "M", Name := "Mallory", Role := "poster" }) "voter"
      = true :=
  forum_role_monotone { Forum := "F", ID := "V", Name := "Victor", Role := "voter" }
    { Forum := "F", ID := "M", Name := "Mallory", Role := "poster" } "voter"
    (by decide) (by decide) (by decide) (by decide)

/-! ## C12: server-side fields of accepted submissions -/

/-- The effect of `forums_comment_submit_event` when it accepts a comment. -/
theorem comment_submit_accepted (env : Env) (w : World) (e : Event) (now : Int)
    (f : Forum) (c : ForumComment) (m : ForumMember)
    (hf : forum_by_id env (some e.user) w.db e.to_ = some f)
    (hc : e.segment_comment = some c)
    (hid : env.valid c.ID "id" = true)
    (hdup : (w.db.comments.any fun r => r.ID == c.ID) = false)
    (hpost : (w.db.posts.any fun r => r.Forum == f.ID && r.ID == c.Post) = true)
    (hparent : c.Parent = "" ∨
      (w.db.comments.any fun r => r.Forum == f.ID && r.Post == c.Post && r.ID == c.Parent) = true)
    (hm : forum_member w.db f e.from_ "commenter" = some m)
    (hbody : env.valid c.Body "text" = true) :
    forums_comment_submit_event env w e now =
      { db :=
          ((w.db.replace_comment
              { ID := e.id, Forum := f.ID, Post := c.Post, Parent := c.Parent,
                Member := e.from_, Name := m.Name, Body := c.Body, Up := 0, Down := 0,
                Created := now }).update_posts c.Post fun r =>
            { r with Updated := now, Comments := r.Comments + 1 }).forums_set_updated now f.ID,
        outbox := w.outbox ++
          (((w.db.active_members f.ID).filter fun r =>
              r.ID != e.from_ && r.ID != e.user.Identity.ID).map fun r =>
            message_comment f.ID r.ID "comment/create"
              { c with Created := now, Member := e.from_, Name := m.Name }),
        saved := w.saved } := by
  have hpar : (c.Parent != "" &&
      !(w.db.comments.any fun r => r.Forum == f.ID && r.Post == c.Post && r.ID == c.Parent))
        = false := by
    rcases hparent with h | h
    · simp [h]
    · simp [h]
  unfold forums_comment_submit_event
  simp only [hf, hc, hid, hdup, hpost, hpar, hm, hbody]
  rfl

/-- The effect of `forums_post_submit_event` on table `posts` when it accepts
a post. -/
theorem post_submit_posts (env : Env) (w : World) (e : Event) (now1 now2 : Int)
    (f : Forum) (p : ForumPost) (m : ForumMember)
    (hf : forum_by_id env (some e.user) w.db e.to_ = some f)
    (hp : e.segment_post = some p)
    (hid : env.valid p.ID "id" = true)
    (hdup : (w.db.posts.any fun r => r.ID == p.ID) = false)
    (hm : forum_member w.db f e.from_ "poster" = some m)
    (htitle : env.valid p.Title "line" = true)
    (hbody : env.valid p.Body "text" = true) :
    (forums_post_submit_event env w e now1 now2).db.posts =
      w.db.posts.filter (fun x => x.ID != p.ID) ++
        [{ ID := p.ID, Forum := f.ID, Member := e.from_, Name := m.Name, Title := p.Title,
           Body := p.Body, Comments := 0, Up := 0, Down := 0, Created := now1,
           Updated := now1, Attachments := none }] := by
  unfold forums_post_submit_event
  simp only [hf, hp, hid, hdup, hm, htitle, hbody]
  rfl

/-- C12: the outcome of `forums_post_submit_event` and of
`forums_comment_submit_event` does not depend on the member, name and created
values of the payload; and when a submission is accepted, the row appended to
the table and every create message fanned out carry the sender of the event as
author, the name of the sender in the membership table of the owner as display
name, and the clock of the owner at acceptance as creation time. -/
theorem submit_server_fields (env : Env) (w : World) (e : Event) :
    (∀ (p : ForumPost) (x y : String) (z now1 now2 : Int),
      forums_post_submit_event env w
          { e with content := some (Segment.post { p with Member := x, Name := y, Created := z }) }
          now1 now2
        = forums_post_submit_event env w { e with content := some (Segment.post p) } now1 now2) ∧
    (∀ (c : ForumComment) (x y : String) (z now : Int),
      forums_comment_submit_event env w
          { e with
            content := some (Segment.comment { c with Member := x, Name := y, Created := z }) }
          now
        = forums_comment_submit_event env w { e with content := some (Segment.comment c) } now) ∧
    (∀ (now1 now2 : Int) (f : Forum) (p : ForumPost) (m : ForumMember),
      forum_by_id env (some e.user) w.db e.to_ = some f →
      e.segment_post = some p →
      env.valid p.ID "id" = true →
      (w.db.posts.any fun r => r.ID == p.ID) = false →
      forum_member w.db f e.from_ "poster" = some m →
      env.valid p.Title "line" = true →
      env.valid p.Body "text" = true →
      (∃ old r, (forums_post_submit_event env w e now1 now2).db.posts = old ++ [r] ∧
        r.ID = p.ID ∧ r.Member = e.from_ ∧ r.Name = m.Name ∧ r.Created = now1) ∧
      ∃ msgs, (forums_post_submit_event env w e now1 now2).outbox = w.outbox ++ msgs ∧
        ∀ g ∈ msgs, ∃ q, g.content = some (Segment.post q) ∧
          q.ID = p.ID ∧ q.Member = e.from_ ∧ q.Name = m.Name ∧ q.Created = now1) ∧
    (∀ (now : Int) (f : Forum) (c : ForumComment) (m : ForumMember),
      forum_by_id env (some e.user) w.db e.to_ = some f →
      e.segment_comment = some c →
      env.valid c.ID "id" = true →
      (w.db.comments.any fun r => r.ID == c.ID) = false →
      (w.db.posts.any fun r => r.Forum == f.ID && r.ID == c.Post) = true →
      (c.Parent = "" ∨
        (w.db.comments.any fun r => r.Forum == f.ID && r.Post == c.Post && r.ID == c.Parent)
          = true) →
      forum_member w.db f e.from_ "commenter" = some m →
      env.valid c.Body "text" = true →
      (∃ old r, (forums_comment_submit_event env w e now).db.comments = old ++ [r] ∧
        r.Post = c.Post ∧ r.Body = c.Body ∧
        r.Member = e.from_ ∧ r.Name = m.Name ∧ r.Created = now) ∧
      ∃ msgs, (forums_comment_submit_event env w e now).outbox = w.outbox ++ msgs ∧
        ∀ g ∈ msgs, ∃ q, g.content = some (Segment.comment q) ∧
          q.ID = c.ID ∧ q.Member = e.from_ ∧ q.Name = m.Name ∧ q.Created = now) := by
  refine ⟨fun _ _ _ _ _ _ => rfl, fun _ _ _ _ _ => rfl, ?_, ?_⟩
  · intro now1 now2 f p m hf hp hid hdup hm htitle hbody
    refine ⟨⟨_, _, post_submit_posts env w e now1 now2 f p m hf hp hid hdup hm htitle hbody,
      rfl, rfl, rfl, rfl⟩,
      _, post_submit_outbox env w e now1 now2 f p m hf hp hid hdup hm htitle hbody, ?_⟩
    intro g hg
    obtain ⟨r, _, rfl⟩ := List.mem_map.mp hg
    exact ⟨_, rfl, rfl, rfl, rfl, rfl⟩
  · intro now f c m hf hc hid hdup hpost hparent hm hbody
    rw [comment_submit_accepted env w e now f c m hf hc hid hdup hpost hparent hm hbody]
    refine ⟨⟨_, _, rfl, rfl, rfl, rfl, rfl, rfl⟩, _, rfl, ?_⟩
    intro g hg
    obtain ⟨r, _, rfl⟩ := List.mem_map.mp hg
    exact ⟨_, rfl, rfl, rfl, rfl, rfl⟩

/-- C12 on the owner of "F": member "M1" (name "One" in the membership table)
submits post "Q" and comment "D" at owner time 7; the stored rows and the
messages to "M3" name "M1" and "One" and carry the time 7, although the
payloads left member, name and created empty. -/
theorem submit_server_fields_witness :
    ((∃ old r, (forums_post_submit_event example_owner_env example_submit_world
          example_inflated_submit 7 8).db.posts = old ++ [r] ∧
        r.ID = "Q" ∧ r.Member = "M1" ∧ r.Name = "One" ∧ r.Created = 7) ∧
      ∃ msgs, (forums_post_submit_event example_owner_env example_submit_world
          example_inflated_submit 7 8).outbox = example_submit_world.outbox ++ msgs ∧
        ∀ g ∈ msgs, ∃ q, g.content = some (Segment.post q) ∧
          q.ID = "Q" ∧ q.Member = "M1" ∧ q.Name = "One" ∧ q.Created = 7) ∧
    ((∃ old r, (forums_comment_submit_event example_owner_env example_submit_world
          example_comment_submit 7).db.comments = old ++ [r] ∧
        r.Post = "P" ∧ r.Body = "hi" ∧ r.Member = "M1" ∧ r.Name = "One" ∧ r.Created = 7) ∧
      ∃ msgs, (forums_comment_submit_event example_owner_env example_submit_world
          example_comment_submit 7).outbox = example_submit_world.outbox ++ msgs ∧
        ∀ g ∈ msgs, ∃ q, g.content = some (Segment.comment q) ∧
          q.ID = "D" ∧ q.Member = "M1" ∧ q.Name = "One" ∧ q.Created = 7) ∧
    (forums_post_submit_event example_owner_env example_submit_world
        example_inflated_submit 7 8).outbox.map (fun g => g.to_) = ["M3"] :=
  ⟨(submit_server_fields example_owner_env example_submit_world example_inflated_submit).2.2.1
      7 8 { example_forum with Entity := some { ID := "F", Fingerprint := "F" } }
      { ID := "Q", Forum := "", Member := "", Name := "", Title := "T", Body := "B",
        Comments := 9, Up := 7, Down := 3, Created := 0, Updated := 0, Attachments := none }
      { Forum := "F", ID := "M1", Name := "One", Role := "poster" }
      (by decide) rfl rfl (by decide) (by decide) rfl rfl,
    (submit_server_fields example_owner_env example_submit_world example_comment_submit).2.2.2
      7 { example_forum with Entity := some { ID := "F", Fingerprint := "F" } }
      { ID := "D", Forum := "", Post := "P", Parent := "", Member := "", Name := "",
        Body := "hi", Up := 0, Down := 0, Created := 0 }
      { Forum := "F", ID := "M1", Name := "One", Role := "poster" }
      (by decide) rfl rfl (by decide) (by decide) (Or.inl rfl) (by decide) rfl,
    by decide⟩

/-! ## C18: the identifier of an accepted comment submission -/

/-- C18: member "M1" submits comment "D" in an event whose own identifier is
"E9". `forums_comment_submit_event` checks "D" for duplicates and fans "D" out,
but stores the row under "E9". A second delivery of the same event finds no
comment "D", is accepted again, fans out again and raises the comment count of
the post to 2. -/
theorem comment_submit_stores_event_id :
    (forums_comment_submit_event example_owner_env example_submit_world
        example_comment_submit 7).db.comments.map (fun r => r.ID) = ["E9"] ∧
    (forums_comment_submit_event example_owner_env example_submit_world
        example_comment_submit 7).outbox
      = [message_comment "F" "M3" "comment/create"
          { ID := "D", Forum := "", Post := "P", Parent := "", Member := "M1", Name := "One",
            Body := "hi", Up := 0, Down := 0, Created := 7 }] ∧
    (forums_comment_submit_event example_owner_env
        (forums_comment_submit_event example_owner_env example_submit_world
          example_comment_submit 7)
        example_comment_submit 8).db.posts.map (fun r => (r.ID, r.Comments)) = [("P", 2)] ∧
    (forums_comment_submit_event example_owner_env
        (forums_comment_submit_event example_owner_env example_submit_world
          example_comment_submit 7)
        example_comment_submit 8).outbox.length = 2 := by
  decide

/-! ## C19: tallies carried by the fan-out of an accepted post -/

/-- C19: member "M1" submits post "Q" with up 7, down 3 and comments 9 in the
payload. The owner stores the row with 0, 0 and 0, but the post/create message
it fans out carries 7, 3 and 9, and `forums_post_create_event` on the receiving
member "M3" stores up 7 and down 3. -/
theorem post_submit_fans_out_payload_tallies :
    (forums_post_submit_event example_owner_env example_submit_world
        example_inflated_submit 7 8).db.posts.map (fun r => (r.ID, r.Up, r.Down, r.Comments))
      = [("P", 0, 0, 0), ("Q", 0, 0, 0)] ∧
    (forums_post_submit_event example_owner_env example_submit_world
        example_inflated_submit 7 8).outbox
      = [message_post "F" "M3" "post/create"
          { ID := "Q", Forum := "", Member := "M1", Name := "One", Title := "T", Body := "B",
            Comments := 9, Up := 7, Down := 3, Created := 7, Updated := 0,
            Attachments := none }] ∧
    ((forums_post_submit_event example_owner_env example_submit_world
        example_inflated_submit 7 8).outbox.map fun g =>
      (forums_post_create_event example_env example_world
        (g.deliver "E11" example_member3) 9).db.posts.map
          fun r => (r.ID, r.Up, r.Down, r.Comments))
      = [[("P", 0, 0, 0), ("Q", 7, 3, 0)]] := by
  decide

/-! ## C14: catch-up replay on subscribe -/

/-- C14: member "M2" holds a membership row with role "disabled" in forum "F",
whose default role is "commenter", and sends a subscribe event.
`insert or ignore` keeps the row, so "M2" is still disabled after the event,
but the replay is decided on the default role of the forum and "M2" is sent
the post/create event of post "P". -/
theorem subscribe_event_replays_to_disabled :
    ((forums_subscribe_event example_owner_env example_services example_submit_world
        example_resubscribe 7 8).db.members.filter fun r => r.ID == "M2").map (fun r => r.Role)
      = ["disabled"] ∧
    ((forums_subscribe_event example_owner_env example_services example_submit_world
        example_resubscribe 7 8).outbox.filter fun g => g.to_ == "M2").map
        (fun g => (g.event, g.content))
      = [("post/create", some (Segment.post (wire_post example_post)))] := by
  decide

/-! ## C15: member/update events -/

/-- C15: member "M" holds the row (forum "F", name "Mallory", role viewer) and
receives a member/update event with role voter. The handler writes the row
with `replace into members ( forum, id, role )`: the role becomes voter and the
display name becomes the column default, the empty string. -/
theorem member_update_event_resets_name :
    example_member_world.db.members
      = [{ Forum := "F", ID := "M", Name := "Mallory", Role := "viewer" }] ∧
    (forums_member_update_event example_env example_member_world example_role_update).db.members
      = [{ Forum := "F", ID := "M", Name := "", Role := "voter" }] := by
  decide

/-! ## C13: update time against creation time -/

/-- C13 as stated fails: with a local clock that never decreases (readings 1
and 2), member "M" subscribes to "F", receives post "P" created at time 10 and
then a comment on "P" created at time 5. `forums_comment_create_event` writes
the creation time of the comment into `updated` of the post, which is then
earlier than `created`. -/
theorem updated_before_created_reachable :
    (example_skewed_inputs.flatMap Input.clock).Sorted (fun a b => a ≤ b) ∧
    (run example_env example_services World.empty example_skewed_inputs).db.posts.map
        (fun p => (p.ID, p.Created, p.Updated))
      = [("P", 10, 5)] := by
  decide

theorem posts_bumped_refl (id : String) (t : Int) (l : List ForumPost) :
    posts_bumped id t l l :=
  fun q hq => ⟨q, hq, rfl, rfl, Or.inl rfl⟩

theorem posts_bumped_update (old new : List ForumPost) (id : String)
    (g : ForumPost → ForumPost) (t : Int)
    (hg : ∀ r, (g r).ID = r.ID ∧ (g r).Created = r.Created ∧ (g r).Updated = t)
    (h : posts_bumped id t old new) :
    posts_bumped id t old (new.map fun r => if r.ID = id then g r else r) := by
  intro q hq
  obtain ⟨r, hr, rfl⟩ := List.mem_map.mp hq
  obtain ⟨p, hp, hi, hc, hu⟩ := h r hr
  by_cases hid : r.ID = id
  · rw [if_pos hid]
    exact ⟨p, hp, by rw [(hg r).1, hi], by rw [(hg r).2.1, hc],
      Or.inr ⟨by rw [← hi, hid], (hg r).2.2⟩⟩
  · rw [if_neg hid]
    exact ⟨p, hp, hi, hc, hu⟩

theorem posts_step_of_bumped (b : Option (String × Int)) (id : String) (t : Int)
    (old new : List ForumPost) (hb : b = some (id, t)) (h : posts_bumped id t old new) :
    posts_step b old new := by
  intro q hq
  obtain ⟨p, hp, hi, hc, hu⟩ := h q hq
  refine Or.inl ⟨p, hp, hi, hc, ?_⟩
  rcases hu with hu | ⟨hpid, hqt⟩
  · exact Or.inl hu
  · exact Or.inr (by rw [hb, hpid, hqt])

theorem posts_step_of_eq (b : Option (String × Int)) (old new : List ForumPost)
    (h : new = old) : posts_step b old new := by
  rw [h]
  exact fun q hq => Or.inl ⟨q, hq, rfl, rfl, Or.inl rfl⟩

theorem posts_step_filter (b : Option (String × Int)) (old : List ForumPost)
    (P : ForumPost → Bool) : posts_step b old (old.filter P) :=
  fun q hq => Or.inl ⟨q, List.mem_of_mem_filter hq, rfl, rfl, Or.inl rfl⟩

theorem posts_step_replace (b : Option (String × Int)) (old : List ForumPost)
    (P : ForumPost → Bool) (row : ForumPost) (hu : row.Updated = row.Created) :
    posts_step b old (old.filter P ++ [row]) := by
  intro q hq
  rcases List.mem_append.mp hq with hq | hq
  · exact Or.inl ⟨q, List.mem_of_mem_filter hq, rfl, rfl, Or.inl rfl⟩
  · rw [List.mem_singleton] at hq
    subst hq
    exact Or.inr hu

/-- Function `forums_post_vote_set` keeps identifier and creation time of every
post and writes its clock reading into `updated` of post `p.ID` only. -/
theorem post_vote_set_bumped (db : DB) (p : ForumPost) (voter vote : String) (now : Int) :
    posts_bumped p.ID now db.posts (forums_post_vote_set db p voter vote now).1.posts := by
  unfold forums_post_vote_set
  dsimp only
  repeat' split
  all_goals
    simp only [DB.update_posts, DB.replace_vote, DB.forums_set_updated]
    repeat' first
      | exact posts_bumped_refl _ _ _
      | (intro r; exact ⟨rfl, rfl, rfl⟩)
      | refine posts_bumped_update _ _ p.ID _ now ?_ ?_

/-- Function `forums_comment_vote_set` keeps identifier and creation time of
every post and writes its clock reading into `updated` of post `c.Post`
only. -/
theorem comment_vote_set_bumped (db : DB) (c : ForumComment) (voter vote : String)
    (now : Int) :
    posts_bumped c.Post now db.posts (forums_comment_vote_set db c voter vote now).1.posts := by
  unfold forums_comment_vote_set
  dsimp only
  repeat' split
  all_goals
    simp only [DB.update_posts, DB.update_comments, DB.replace_vote, DB.forums_set_updated]
    repeat' first
      | exact posts_bumped_refl _ _ _
      | (intro r; exact ⟨rfl, rfl, rfl⟩)
      | refine posts_bumped_update _ _ c.Post _ now ?_ ?_

theorem comment_create_step (env : Env) (w : World) (a : Action) (now : Int) (uid : String) :
    posts_step ((Input.comment_create a now uid).bump w) w.db.posts
      (forums_comment_create env w a now uid).1.db.posts := by
  unfold forums_comment_create
  dsimp only
  repeat' split
  all_goals first
    | exact posts_step_of_eq _ _ _ rfl
    | exact posts_step_of_bumped _ _ _ _ _ rfl
        (posts_bumped_update _ _ _ _ _ (fun _ => ⟨rfl, rfl, rfl⟩) (posts_bumped_refl _ _ _))

theorem comment_create_event_step (env : Env) (w : World) (e : Event) :
    posts_step ((Input.comment_create_event e).bump w) w.db.posts
      (forums_comment_create_event env w e).db.posts := by
  unfold forums_comment_create_event
  dsimp only
  repeat' split
  all_goals first
    | exact posts_step_of_eq _ _ _ rfl
    | (refine posts_step_of_bumped _ _ _ _ _ ?_
        (posts_bumped_update _ _ _ _ _ (fun _ => ⟨rfl, rfl, rfl⟩) (posts_bumped_refl _ _ _))
       simp only [Input.bump, *, Option.map_some'])

theorem comment_submit_event_step (env : Env) (w : World) (e : Event) (now : Int) :
    posts_step ((Input.comment_submit_event e now).bump w) w.db.posts
      (forums_comment_submit_event env w e now).db.posts := by
  unfold forums_comment_submit_event
  dsimp only
  repeat' split
  all_goals first
    | exact posts_step_of_eq _ _ _ rfl
    | (refine posts_step_of_bumped _ _ _ _ _ ?_
        (posts_bumped_update _ _ _ _ _ (fun _ => ⟨rfl, rfl, rfl⟩) (posts_bumped_refl _ _ _))
       simp only [Input.bump, *, Option.map_some'])

theorem comment_update_event_step (w : World) (e : Event) (now : Int) :
    posts_step ((Input.comment_update_event e now).bump w) w.db.posts
      (forums_comment_update_event w e now).db.posts := by
  unfold forums_comment_update_event
  dsimp only
  repeat' split
  all_goals first
    | exact posts_step_of_eq _ _ _ rfl
    | (refine posts_step_of_bumped _ _ _ _ _ ?_
        (posts_bumped_update _ _ _ _ _ (fun _ => ⟨rfl, rfl, rfl⟩) (posts_bumped_refl _ _ _))
       simp only [Input.bump, *, Option.map_some'])

theorem post_update_event_step (w : World) (e : Event) (now : Int) :
    posts_step ((Input.post_update_event e now).bump w) w.db.posts
      (forums_post_update_event w e now).db.posts := by
  unfold forums_post_update_event
  dsimp only
  repeat' split
  all_goals first
    | exact posts_step_of_eq _ _ _ rfl
    | (refine posts_step_of_bumped _ _ _ _ _ ?_
        (posts_bumped_update _ _ _ _ _ (fun _ => ⟨rfl, rfl, rfl⟩) (posts_bumped_refl _ _ _))
       simp only [Input.bump, *, Option.map_some'])

theorem comment_vote_step (env : Env) (w : World) (a : Action) (now : Int) :
    posts_step ((Input.comment_vote a now).bump w) w.db.posts
      (forums_comment_vote env w a now).1.db.posts := by
  unfold forums_comment_vote
  dsimp only
  repeat' split
  all_goals first
    | exact posts_step_of_eq _ _ _ rfl
    | (refine posts_step_of_bumped _ _ _ _ _ ?_ (comment_vote_set_bumped _ _ _ _ _)
       simp only [Input.bump, *, Option.map_some'])

theorem comment_vote_event_step (env : Env) (w : World) (e : Event) (now : Int) :
    posts_step ((Input.comment_vote_event e now).bump w) w.db.posts
      (forums_comment_vote_event env w e now).db.posts := by
  unfold forums_comment_vote_event
  dsimp only
  repeat' split
  all_goals first
    | exact posts_step_of_eq _ _ _ rfl
    | (refine posts_step_of_bumped _ _ _ _ _ ?_ (comment_vote_set_bumped _ _ _ _ _)
       simp only [Input.bump, *, Option.map_some'])

theorem post_vote_step (env : Env) (w : World) (a : Action) (now : Int) :
    posts_step ((Input.post_vote a now).bump w) w.db.posts
      (forums_post_vote env w a now).1.db.posts := by
  unfold forums_post_vote
  dsimp only
  repeat' split
  all_goals first
    | exact posts_step_of_eq _ _ _ rfl
    | (refine posts_step_of_bumped _ _ _ _ _ ?_ (post_vote_set_bumped _ _ _ _ _)
       simp only [Input.bump, *, Option.map_some'])

theorem post_vote_event_step (env : Env) (w : World) (e : Event) (now : Int) :
    posts_step ((Input.post_vote_event e now).bump w) w.db.posts
      (forums_post_vote_event env w e now).db.posts := by
  unfold forums_post_vote_event
  dsimp only
  repeat' split
  all_goals first
    | exact posts_step_of_eq _ _ _ rfl
    | (refine posts_step_of_bumped _ _ _ _ _ ?_ (post_vote_set_bumped _ _ _ _ _)
       simp only [Input.bump, *, Option.map_some'])

theorem post_create_step (env : Env) (w : World) (a : Action) (now : Int) (uid : String) :
    posts_step none w.db.posts (forums_post_create env w a now uid).1.db.posts := by
  unfold forums_post_create
  dsimp only
  repeat' split
  all_goals first
    | exact posts_step_of_eq _ _ _ rfl
    | exact posts_step_replace _ _ _ _ rfl

theorem post_create_event_step (env : Env) (w : World) (e : Event) (now : Int) :
    posts_step none w.db.posts (forums_post_create_event env w e now).db.posts := by
  unfold forums_post_create_event
  dsimp only
  repeat' split
  all_goals first
    | exact posts_step_of_eq _ _ _ rfl
    | exact posts_step_replace _ _ _ _ rfl

theorem post_submit_event_step (env : Env) (w : World) (e : Event) (now1 now2 : Int) :
    posts_step none w.db.posts (forums_post_submit_event env w e now1 now2).db.posts := by
  unfold forums_post_submit_event
  dsimp only
  repeat' split
  all_goals first
    | exact posts_step_of_eq _ _ _ rfl
    | exact posts_step_replace _ _ _ _ rfl

theorem members_save_loop_posts (env : Env) (u : User) (f : Forum) (a : Action) :
    ∀ (ms : List ForumMember) (w : World),
      (members_save_loop env u f a ms w).1.db.posts = w.db.posts := by
  intro ms
  induction ms with
  | nil => intro w; rfl
  | cons m ms ih =>
    intro w
    unfold members_save_loop
    dsimp only
    repeat' split
    all_goals first
      | rfl
      | exact ih _

theorem lifecycle_posts (env : Env) (sv : Services) (w : World) :
    (∀ a now, (forums_create env sv w a now).1.db.posts = w.db.posts) ∧
    (∀ a now, (forums_members_save env sv w a now).1.db.posts = w.db.posts) ∧
    (∀ e, (forums_member_update_event env w e).db.posts = w.db.posts) ∧
    (∀ a now, (forums_subscribe env sv w a now).1.db.posts = w.db.posts) ∧
    (∀ e now1 now2, (forums_subscribe_event env sv w e now1 now2).db.posts = w.db.posts) ∧
    (∀ e now, (forums_unsubscribe_event env sv w e now).db.posts = w.db.posts) ∧
    (∀ e now, (forums_update_event env w e now).db.posts = w.db.posts) := by
  refine ⟨?_, ?_, ?_, ?_, ?_, ?_, ?_⟩
  · intro a now
    unfold forums_create
    dsimp only
    repeat' split
    all_goals rfl
  · intro a now
    unfold forums_members_save
    dsimp only
    repeat' split
    all_goals first
      | rfl
      | exact members_save_loop_posts env _ _ a _ w
  · intro e
    unfold forums_member_update_event
    dsimp only
    repeat' split
    all_goals rfl
  · intro a now
    unfold forums_subscribe
    dsimp only
    repeat' split
    all_goals rfl
  · intro e now1 now2
    unfold forums_subscribe_event DB.insert_or_ignore_member
    dsimp only
    repeat' split
    all_goals rfl
  · intro e now
    unfold forums_unsubscribe_event
    dsimp only
    repeat' split
    all_goals rfl
  · intro e now
    unfold forums_update_event
    dsimp only
    repeat' split
    all_goals rfl

theorem unsubscribe_step (env : Env) (w : World) (a : Action) :
    posts_step none w.db.posts (forums_unsubscribe env w a).1.db.posts := by
  unfold forums_unsubscribe
  dsimp only
  repeat' split
  all_goals first
    | exact posts_step_of_eq _ _ _ rfl
    | exact posts_step_filter _ _ _

/-- One unit of work keeps identifier and creation time of every stored post,
writes into `updated` of a stored post only the timestamp of its bump, and
that only for the post of its bump, and inserts posts with `updated` equal to
`created`. -/
theorem step_posts (env : Env) (sv : Services) (w : World) (i : Input) :
    posts_step (i.bump w) w.db.posts (step env sv w i).db.posts := by
  obtain ⟨h1, h2, h3, h4, h5, h6, h7⟩ := lifecycle_posts env sv w
  cases i with
  | comment_create a now uid => exact comment_create_step env w a now uid
  | comment_create_event e => exact comment_create_event_step env w e
  | comment_submit_event e now => exact comment_submit_event_step env w e now
  | comment_update_event e now => exact comment_update_event_step w e now
  | comment_vote a now => exact comment_vote_step env w a now
  | comment_vote_event e now => exact comment_vote_event_step env w e now
  | create a now => exact posts_step_of_eq _ _ _ (h1 a now)
  | members_save a now => exact posts_step_of_eq _ _ _ (h2 a now)
  | member_update_event e => exact posts_step_of_eq _ _ _ (h3 e)
  | post_create a now uid => exact post_create_step env w a now uid
  | post_create_event e now => exact post_create_event_step env w e now
  | post_submit_event e now1 now2 => exact post_submit_event_step env w e now1 now2
  | post_update_event e now => exact post_update_event_step w e now
  | post_vote a now => exact post_vote_step env w a now
  | post_vote_event e now => exact post_vote_event_step env w e now
  | subscribe a now => exact posts_step_of_eq _ _ _ (h4 a now)
  | subscribe_event e now1 now2 => exact posts_step_of_eq _ _ _ (h5 e now1 now2)
  | unsubscribe a => exact unsubscribe_step env w a
  | unsubscribe_event e now => exact posts_step_of_eq _ _ _ (h6 e now)
  | update_event e now => exact posts_step_of_eq _ _ _ (h7 e now)

/-- The invariant is kept along a run in which no unit of work that changes
table `posts` bumps a post with a timestamp earlier than its creation time. -/
theorem run_keeps_invariant (env : Env) (sv : Services) :
    ∀ (inputs : List Input) (w : World),
      bumps_ok env sv w inputs →
      (∀ p ∈ w.db.posts, p.Created ≤ p.Updated) →
      ∀ p ∈ (run env sv w inputs).db.posts, p.Created ≤ p.Updated := by
  intro inputs
  induction inputs with
  | nil =>
    intro w _ hinv p hp
    exact hinv p hp
  | cons i is ih =>
    intro w hok hinv
    obtain ⟨hbump, hrest⟩ := hok
    have hstep := step_posts env sv w i
    show ∀ p ∈ (run env sv (step env sv w i) is).db.posts, p.Created ≤ p.Updated
    apply ih (step env sv w i) hrest
    intro q hq
    rcases hbump with hsame | hbump
    · rw [hsame] at hq
      exact hinv q hq
    · rcases hstep q hq with ⟨p, hp, _, hc, hu⟩ | hu
      · rcases hu with hu | hu
        · rw [hc, hu]
          exact hinv p hp
        · rw [hc]
          exact hbump (p.ID, q.Updated) hu p hp rfl
      · rw [hu]

/-- C13, amended: in every store reachable from the empty store by any
sequence of local actions and inbound event handlers, every stored post
satisfies updated ≥ created, provided no unit of work that changes table
`posts` bumps a post with a timestamp earlier than the creation time of that
post: the reading of `now()` of a local comment or vote, of a submitted comment
or vote and of an update event is not earlier than the stored creation time of
the post it addresses, and the creation time carried by an inbound
comment/create event is not earlier than the stored creation time of its post.
Nothing is assumed about timestamps of different posts, about events that are
dropped, or about the order of the local clock. -/
theorem updated_ge_created (env : Env) (sv : Services) (inputs : List Input)
    (hbumps : bumps_ok env sv World.empty inputs) :
    ∀ p ∈ (run env sv World.empty inputs).db.posts, p.Created ≤ p.Updated :=
  run_keeps_invariant env sv inputs World.empty hbumps
    (fun _ hp => absurd hp (List.not_mem_nil _))

/-- C13, amended, on a catch-up replay: the member subscribes at local time
100 and receives posts created at 5 and 6 and a comment on the first created at
7. The timestamps are not in ascending order of use, every bump respects the
creation time of its post, and the posts end with created/updated 5/7 and
6/6. The run of `example_skewed_inputs`, where the comment is created before
its post, does not satisfy the condition. -/
theorem updated_ge_created_witness :
    (∀ p ∈ (run example_env example_services World.empty example_replayed_inputs).db.posts,
      p.Created ≤ p.Updated) ∧
    (run example_env example_services World.empty example_replayed_inputs).db.posts.map
        (fun p => (p.ID, p.Created, p.Updated))
      = [("P1", 5, 7), ("P2", 6, 6)] ∧
    bumps_ok example_env example_services World.empty example_replayed_inputs ∧
    ¬ bumps_ok example_env example_services World.empty example_skewed_inputs :=
  ⟨updated_ge_created example_env example_services example_replayed_inputs (by decide),
    by decide, by decide, by decide⟩

end Forums
